import Mathlib

set_option linter.unusedVariables false

/-! Shallow embedding of the cpu_specs library (the revision in
`src/unnamed/part_001` of the repository, which is the one with the CPUID
availability gate and the shared set-or-clear flag-update primitive).

The hardware CPUID instruction is modelled as an oracle: a `Machine` assigns
a 32-bit register value to every (leaf, subleaf, register) triple, and carries
the availability bit that the C code probes by toggling bit 21 of EFLAGS.
The CPUID subleaf-enumeration loops of the two cache decoders are modelled
with explicit fuel.  Two instrumentation flags record the undefined-behaviour
events the C code can exhibit: an out-of-bounds write into
`cache_level_specs` and an integer division with divisor 0. -/

abbrev Reg := Fin 4

def EAX : Reg := 0
def EBX : Reg := 1
def ECX : Reg := 2
def EDX : Reg := 3

/-- The hardware, as seen by the library: the availability of the CPUID
instruction (probed in the C source by `cpuid_is_available` via the EFLAGS
bit-21 toggle, using the external flag-register intrinsics) and the pure
register outcome of `__cpuidex` for every (leaf, subleaf) pair.  Hardware
registers are 32 bits wide, hence the bound. -/
structure Machine where
  avail : Bool
  q : Nat → Nat → Reg → Nat
  hq : ∀ l s r, q l s r < 2 ^ 32

/-- enum cpu_instruction -/
def SSE1 : Nat := 1 <<< 0
def SSE2 : Nat := 1 <<< 1
def SSE3 : Nat := 1 <<< 2
def SSSE3 : Nat := 1 <<< 3
def SSE4_1 : Nat := 1 <<< 4
def SSE4_2 : Nat := 1 <<< 5
def AVX1 : Nat := 1 <<< 6
def AVX2 : Nat := 1 <<< 7
def FMA3 : Nat := 1 <<< 8
def AVX512F : Nat := 1 <<< 9
def POPCNT : Nat := 1 <<< 10
def LZCNT : Nat := 1 <<< 11
def TZCNT : Nat := 1 <<< 12
def BMI1 : Nat := 1 <<< 13
def BMI2 : Nat := 1 <<< 14
def TBM : Nat := 1 <<< 15
def RDTSCP : Nat := 1 <<< 16
def F16C : Nat := 1 <<< 17

/-- "cAMD" of "AuthenticAMD" (ECX of leaf 0). -/
def CPU_MANUFACTURER_AMD : Nat := 0x444D4163

/-- "ntel" of "GenuineIntel" (ECX of leaf 0). -/
def CPU_MANUFACTURER_INTEL : Nat := 0x6C65746E

def KiB (x : Nat) : Nat := x * 1024

/-- Two's-complement negation of a 32-bit value: the bit pattern of the C
expression `-isolated_bit` on an `s32` holding 0 or 1. -/
def s32neg (b : Nat) : Nat := (2 ^ 32 - b) % 2 ^ 32

/-- `update_inst_availability` from the source: isolates bit `flag_bit` of
`flags` and forces the bits selected by `feature_mask` in `instructions` to
that probed value, leaving all other bits unchanged. -/
def update_inst_availability (instructions flags flag_bit feature_mask : Nat) : Nat :=
  let isolated_bit := (flags >>> flag_bit) &&& 0b1
  let xor_mask := (s32neg isolated_bit ^^^ instructions) &&& feature_mask
  instructions ^^^ xor_mask

/-- struct cpuid_ctx -/
structure cpuid_ctx where
  max_standard_func : Nat
  max_extended_func : Nat
deriving DecidableEq

@[ext]
structure cpu_cache_level_specs where
  data_cache_size : Nat
  attached_core_count : Nat
deriving DecidableEq

/-- struct cpu_specs, plus the two instrumentation flags recording
undefined-behaviour events of the C source (out-of-bounds array write,
division by zero).  The three cache levels L1, L2, L3 are indices 0, 1, 2. -/
@[ext]
structure cpu_specs_t where
  cache_level_specs : Fin 3 → cpu_cache_level_specs
  cache_line_size : Nat
  threads_per_core : Nat
  core_count : Nat
  instructions : Nat
  oob_write : Bool
  div_by_zero : Bool

/-- struct cpu_identity.  `manufacturer` models the 12-byte
non-null-terminated `schar8[12]` buffer, `name` the `schar8[48]` buffer;
both as byte lists, written through 32-bit stores exactly as the source
does (little-endian, as on x86). -/
@[ext]
structure cpu_identity_t where
  family : Nat
  model : Nat
  stepping : Nat
  manufacturer : List Nat
  name : List Nat
deriving DecidableEq

/-- The cache-level field of a leaf 0x8000001D / leaf 0x4 cache descriptor:
`(cpuid_out[EAX] >> 5) & 0b11` in both vendor decoders. -/
def cache_level_of (eax : Nat) : Nat := (eax >>> 5) &&& 0b11

/-- The array index `cache_level - 1` used for every write into
`cache_level_specs` (an `s32` in the source, hence modelled as `Int`:
a descriptor reporting level 0 yields index `-1`). -/
def cache_idx_of (eax : Nat) : Int := (cache_level_of eax : Int) - 1

/-- The write `cpu_specs.cache_level_specs[idx] = v`.  An index outside
`[0, 2]` is an out-of-bounds write (undefined behaviour in C); the model
records it in `oob_write` and leaves the array unchanged. -/
def writeCacheState (s : cpu_specs_t) (idx : Int) (v : cpu_cache_level_specs) : cpu_specs_t :=
  if h : 0 ≤ idx ∧ idx < 3 then
    { s with cache_level_specs :=
        Function.update s.cache_level_specs ⟨idx.toNat, by omega⟩ v }
  else
    { s with oob_write := true }

/-- Record a C integer division about to be performed: a divisor of 0 is
undefined behaviour, tracked in the `div_by_zero` instrumentation flag. -/
def recordDiv (s : cpu_specs_t) (divisor : Nat) : cpu_specs_t :=
  { s with div_by_zero := s.div_by_zero || decide (divisor = 0) }

/-- cpu_specs_amd_get_cores_info from the source. -/
def cpu_specs_amd_get_cores_info (ctx : cpuid_ctx) (m : Machine) (s : cpu_specs_t) :
    cpu_specs_t :=
  if ctx.max_standard_func ≥ 0xB then
    let threads_per_core := m.q 0xB 0x0 EBX &&& 0xFFFF
    let total_thread_count := m.q 0xB 0x1 EBX &&& 0xFFFF
    recordDiv { s with threads_per_core := threads_per_core,
                       core_count := total_thread_count / threads_per_core }
      threads_per_core
  else
    let hyperthreaded := (m.q 0x1 0x0 EDX >>> 28) &&& 0b1
    let s := { s with threads_per_core := hyperthreaded + 1 }
    if ctx.max_extended_func ≥ 0x80000008 then
      let total_thread_count := (m.q 0x80000008 0x0 ECX &&& 0xFF) + 1
      { s with core_count := total_thread_count >>> hyperthreaded }
    else if hyperthreaded ≠ 0 then
      let total_thread_count := (m.q 0x1 0x0 EBX >>> 16) &&& 0xFF
      let core_count := total_thread_count >>> 1
      if ctx.max_extended_func ≥ 0x80000001 then
        if m.q 0x80000001 0x0 ECX &&& (1 <<< 1) ≠ 0 then
          { s with core_count := core_count }
        else s
      else
        { s with core_count := core_count }
    else s

/-- One iteration body of the leaf 0x8000001D do-while loop of
cpu_specs_amd_get_caches_info: skip instruction caches, decode the
descriptor at `subfunc` and store it at index `cache_level - 1`. -/
def amd_cache_body (m : Machine) (subfunc : Nat) (s : cpu_specs_t) : cpu_specs_t :=
  let out := m.q 0x8000001D subfunc
  if out EAX &&& 0x1 ≠ 0 then
    let cache_set_ways := (out EBX >>> 22) + 1
    let cache_partitions := ((out EBX >>> 12) &&& 0x3FF) + 1
    let cache_set_count := out ECX + 1
    let cache_line_count := cache_partitions * cache_set_ways * cache_set_count
    let data_cache_size := cache_line_count * s.cache_line_size
    let attached_thread_count := ((out EAX >>> 14) &&& 0xFFF) + 1
    let attached_core_count := attached_thread_count / s.threads_per_core
    writeCacheState (recordDiv s s.threads_per_core) (cache_idx_of (out EAX))
      { data_cache_size := data_cache_size, attached_core_count := attached_core_count }
  else s

/-- The leaf 0x8000001D do-while loop: process the descriptor at `subfunc`
unconditionally, then continue while the next subleaf is valid
(`cpuid_out[EAX] & 0xF != 0`).  `fuel` bounds the number of iterations. -/
def amd_cache_loop (m : Machine) (fuel subfunc : Nat) (s : cpu_specs_t) : cpu_specs_t :=
  match fuel with
  | 0 => s
  | fuel + 1 =>
    let s := amd_cache_body m subfunc s
    if m.q 0x8000001D (subfunc + 1) EAX &&& 0xF ≠ 0 then
      amd_cache_loop m fuel (subfunc + 1) s
    else s

/-- cpu_specs_amd_get_caches_info from the source. -/
def cpu_specs_amd_get_caches_info (ctx : cpuid_ctx) (m : Machine) (fuel : Nat)
    (s : cpu_specs_t) : cpu_specs_t :=
  if ctx.max_extended_func ≥ 0x8000001D then
    if m.q 0x80000001 0x0 ECX &&& (1 <<< 22) ≠ 0 then
      let s := { s with cache_line_size := (m.q 0x8000001D 0x0 EBX &&& 0x7F) + 1 }
      amd_cache_loop m fuel 0x0 s
    else s
  else if ctx.max_extended_func ≥ 0x80000005 then
    let s := { s with
      cache_line_size := m.q 0x80000005 0x0 ECX &&& 0xFF,
      cache_level_specs := Function.update s.cache_level_specs 0
        ({ data_cache_size := ((m.q 0x80000005 0x0 ECX >>> 24) &&& 0xFF) * KiB 1,
           attached_core_count := 1 }) }
    if ctx.max_extended_func ≥ 0x80000006 then
      let l2 : cpu_cache_level_specs :=
        { data_cache_size := ((m.q 0x80000006 0x0 ECX >>> 16) &&& 0xFFFF) * KiB 1,
          attached_core_count := 1 }
      let l3 : cpu_cache_level_specs :=
        { data_cache_size := ((m.q 0x80000006 0x0 EDX >>> 18) &&& 0x3FFFF) * KiB 512,
          attached_core_count := s.core_count }
      { s with cache_level_specs :=
          Function.update (Function.update s.cache_level_specs 1 l2) 2 l3 }
    else s
  else s

/-- cpu_specs_amd_get_instructions from the source: the undocumented AVX512F
signature probe at leaf 0xD subleaf 5 (forced with the same xor trick as
`update_inst_availability`), then TBM from extended leaf 0x80000001 bit 21. -/
def cpu_specs_amd_get_instructions (ctx : cpuid_ctx) (m : Machine) (s : cpu_specs_t) :
    cpu_specs_t :=
  let s :=
    if ctx.max_standard_func ≥ 0xB then
      let avx512_available : Nat :=
        if m.q 0xD 0x5 EAX = 0x40 ∧ m.q 0xD 0x5 EBX = 0x340 then 1 else 0
      { s with instructions :=
          s.instructions ^^^ ((s32neg avx512_available ^^^ s.instructions) &&& AVX512F) }
    else s
  if ctx.max_extended_func ≥ 0xB then
    { s with instructions :=
        update_inst_availability s.instructions (m.q 0x80000001 0x0 ECX) 21 TBM }
  else s

/-- cpu_specs_intel_get_cores_info from the source. -/
def cpu_specs_intel_get_cores_info (ctx : cpuid_ctx) (m : Machine) (s : cpu_specs_t) :
    cpu_specs_t :=
  if ctx.max_standard_func ≥ 0xB then
    let higher_func : Nat := if ctx.max_standard_func ≥ 0x1F then 0x1F else 0xB
    let threads_per_core := m.q higher_func 0x0 EBX &&& 0xFFFF
    let total_thread_count := m.q higher_func 0x1 EBX &&& 0xFFFF
    recordDiv { s with threads_per_core := threads_per_core,
                       core_count := total_thread_count / threads_per_core }
      threads_per_core
  else
    let hyperthreaded := (m.q 0x1 0x0 EDX >>> 28) &&& 0b1
    let s := { s with threads_per_core := hyperthreaded + 1 }
    if hyperthreaded ≠ 0 then
      let total_thread_count := (m.q 0x1 0x0 EBX >>> 16) &&& 0xFF
      recordDiv { s with core_count := total_thread_count / s.threads_per_core }
        s.threads_per_core
    else s

/-- One iteration body of the leaf 0x4 while loop of
cpu_specs_intel_get_caches_info.  The attached core count is clamped to
`core_count` (the documented upper-bound approximation). -/
def intel_cache_body (m : Machine) (subfunc : Nat) (s : cpu_specs_t) : cpu_specs_t :=
  let out := m.q 0x4 subfunc
  if out EAX &&& 0b1 ≠ 0 then
    let cache_set_ways := (out EBX >>> 22) + 1
    let cache_partitions := ((out EBX >>> 12) &&& 0x3FF) + 1
    let cache_set_count := out ECX + 1
    let cache_line_count := cache_partitions * cache_set_ways * cache_set_count
    let data_cache_size := cache_line_count * s.cache_line_size
    let max_attached_thread_count := ((out EAX >>> 14) &&& 0xFFF) + 1
    let max_attached_core_count := max_attached_thread_count / s.threads_per_core
    let attached_core_count :=
      if max_attached_core_count ≤ s.core_count then max_attached_core_count
      else s.core_count
    writeCacheState (recordDiv s s.threads_per_core) (cache_idx_of (out EAX))
      { data_cache_size := data_cache_size, attached_core_count := attached_core_count }
  else s

/-- The leaf 0x4 while loop: while the descriptor at `subfunc` is valid
(`cpuid_out[EAX] & 0xF != 0`), process it and move on. -/
def intel_cache_loop (m : Machine) (fuel subfunc : Nat) (s : cpu_specs_t) : cpu_specs_t :=
  match fuel with
  | 0 => s
  | fuel + 1 =>
    if m.q 0x4 subfunc EAX &&& 0xF ≠ 0 then
      intel_cache_loop m fuel (subfunc + 1) (intel_cache_body m subfunc s)
    else s

/-- cpu_specs_intel_get_caches_info from the source. -/
def cpu_specs_intel_get_caches_info (ctx : cpuid_ctx) (m : Machine) (fuel : Nat)
    (s : cpu_specs_t) : cpu_specs_t :=
  if ctx.max_standard_func ≥ 0x4 then
    let s := { s with cache_line_size := (m.q 0x4 0x0 EBX &&& 0x7F) + 1 }
    intel_cache_loop m fuel 0x0 s
  else s

/-- cpu_specs_intel_get_instructions from the source: AVX512F from leaf 7
subleaf 0, EBX bit 16. -/
def cpu_specs_intel_get_instructions (ctx : cpuid_ctx) (m : Machine) (s : cpu_specs_t) :
    cpu_specs_t :=
  if ctx.max_standard_func ≥ 0x7 then
    { s with instructions :=
        update_inst_availability s.instructions (m.q 0x7 0x0 EBX) 16 AVX512F }
  else s

/-- cpuid_is_available from the source: the EFLAGS bit-21 toggle probe,
modelled by the Machine's availability bit (the flag-register intrinsics are
external collaborators). -/
def cpuid_is_available (m : Machine) : Bool := m.avail

/-- The instruction-set transformation performed by
cpu_specs_get_common_instructions on the local `instructions` variable:
the fixed table of set-or-clear rules over leaf 1, then leaf 7 and the
LZCNT extended-leaf rule when those leaves are valid. -/
def common_chain (ctx : cpuid_ctx) (m : Machine) (x : Nat) : Nat :=
  let instructions := x
  let instructions := update_inst_availability instructions (m.q 0x1 0x0 EDX) 4 RDTSCP
  let instructions := update_inst_availability instructions (m.q 0x1 0x0 EDX) 25 SSE1
  let instructions := update_inst_availability instructions (m.q 0x1 0x0 EDX) 26 SSE2
  let instructions := update_inst_availability instructions (m.q 0x1 0x0 ECX) 0 SSE3
  let instructions := update_inst_availability instructions (m.q 0x1 0x0 ECX) 9 SSSE3
  let instructions := update_inst_availability instructions (m.q 0x1 0x0 ECX) 12 FMA3
  let instructions := update_inst_availability instructions (m.q 0x1 0x0 ECX) 19 SSE4_1
  let instructions := update_inst_availability instructions (m.q 0x1 0x0 ECX) 20 SSE4_2
  let instructions := update_inst_availability instructions (m.q 0x1 0x0 ECX) 23 POPCNT
  let instructions := update_inst_availability instructions (m.q 0x1 0x0 ECX) 28 AVX1
  let instructions := update_inst_availability instructions (m.q 0x1 0x0 ECX) 29 F16C
  if ctx.max_standard_func ≥ 0x7 then
    let instructions := update_inst_availability instructions (m.q 0x7 0x0 EBX) 3 BMI1
    let instructions := update_inst_availability instructions (m.q 0x7 0x0 EBX) 3 TZCNT
    let instructions := update_inst_availability instructions (m.q 0x7 0x0 EBX) 5 AVX2
    let instructions := update_inst_availability instructions (m.q 0x7 0x0 EBX) 8 BMI2
    if ctx.max_extended_func ≥ 0x80000001 then
      update_inst_availability instructions (m.q 0x80000001 0x0 ECX) 5 LZCNT
    else instructions
  else instructions

/-- cpu_specs_get_common_instructions from the source: reads the global
`instructions` field into a local, applies the rule table, writes it back. -/
def cpu_specs_get_common_instructions (ctx : cpuid_ctx) (m : Machine) (s : cpu_specs_t) :
    cpu_specs_t :=
  { s with instructions := common_chain ctx m s.instructions }

/-- cpuid_ctx_get from the source: `{0, 0}` when CPUID is unavailable,
otherwise the leaf-0 and extended-base-leaf maxima. -/
def cpuid_ctx_get (m : Machine) : cpuid_ctx :=
  if cpuid_is_available m then
    { max_standard_func := m.q 0x0 0x0 EAX, max_extended_func := m.q 0x80000000 0x0 EAX }
  else
    { max_standard_func := 0, max_extended_func := 0 }

/-- cpu_specs_init from the source: gated on CPUID availability; resolves the
leaf context, applies the common instruction decoder, then dispatches on the
leaf-0 ECX manufacturer signature to exactly one of the two vendor
pipelines (cores, then caches, then vendor instructions). -/
def cpu_specs_init (m : Machine) (fuel : Nat) (s : cpu_specs_t) : cpu_specs_t :=
  if cpuid_is_available m then
    let ctx : cpuid_ctx :=
      { max_standard_func := m.q 0x0 0x0 EAX, max_extended_func := m.q 0x80000000 0x0 EAX }
    let s := cpu_specs_get_common_instructions ctx m s
    let cpu_manufacturer_ecx := m.q 0x0 0x0 ECX
    if cpu_manufacturer_ecx = CPU_MANUFACTURER_AMD then
      cpu_specs_amd_get_instructions ctx m
        (cpu_specs_amd_get_caches_info ctx m fuel
          (cpu_specs_amd_get_cores_info ctx m s))
    else if cpu_manufacturer_ecx = CPU_MANUFACTURER_INTEL then
      cpu_specs_intel_get_instructions ctx m
        (cpu_specs_intel_get_caches_info ctx m fuel
          (cpu_specs_intel_get_cores_info ctx m s))
    else s
  else s

/-- The static initializer of the global `cpu_specs` (the Defaults Provider):
L1 = 4 KiB / 1 attached core, L2 and L3 empty, 64-byte cache line, 1 thread
per core, 1 core.  On x64 builds the baseline instruction set is
`SSE1 | SSE2` (guaranteed by the architecture), on x86 builds it is 0. -/
def cpu_specs_default (isa_x64 : Bool) : cpu_specs_t :=
  { cache_level_specs := fun i =>
      if i = 0 then { data_cache_size := KiB 4, attached_core_count := 1 }
      else { data_cache_size := 0, attached_core_count := 0 },
    cache_line_size := 64,
    threads_per_core := 1,
    core_count := 1,
    instructions := if isa_x64 then SSE1 ||| SSE2 else 0,
    oob_write := false,
    div_by_zero := false }

/-- The four little-endian bytes of a 32-bit store, least significant first
(x86 byte order, as used for the manufacturer and name buffers). -/
def leBytes4 (w : Nat) : List Nat :=
  [w &&& 0xFF, (w >>> 8) &&& 0xFF, (w >>> 16) &&& 0xFF, (w >>> 24) &&& 0xFF]

/-- The 16 bytes written by one `__cpuidex(dst, leaf, 0)` call used as a raw
4-register store (EAX, EBX, ECX, EDX in slot order). -/
def leBytes16 (out : Reg → Nat) : List Nat :=
  leBytes4 (out EAX) ++ leBytes4 (out EBX) ++ leBytes4 (out ECX) ++ leBytes4 (out EDX)

/-- Reassemble the 32-bit little-endian word stored at byte offset `off`
(the C read `*(s32*)(cpu_identity.manufacturer + 8)`). -/
def read32 (bytes : List Nat) (off : Nat) : Nat :=
  bytes.getD off 0 ||| (bytes.getD (off + 1) 0 <<< 8) |||
    (bytes.getD (off + 2) 0 <<< 16) ||| (bytes.getD (off + 3) 0 <<< 24)

/-- cpu_identity_init from the source: gated on CPUID availability; stores
the manufacturer signature as the leaf-0 registers EBX, EDX, ECX (EDX and
ECX intentionally swapped), decodes family/model/stepping with the extended
family/model rules, and fills the 48-byte name when extended leaf
0x80000004 is valid. -/
def cpu_identity_init (m : Machine) (s : cpu_identity_t) : cpu_identity_t :=
  if cpuid_is_available m then
    let out0 := m.q 0x0 0x0
    let manufacturer := leBytes4 (out0 EBX) ++ leBytes4 (out0 EDX) ++ leBytes4 (out0 ECX)
    let family_model_stepping := m.q 0x1 0x0 EAX
    let family := (family_model_stepping >>> 8) &&& 0xF
    let model := (family_model_stepping >>> 4) &&& 0xF
    let stepping := family_model_stepping &&& 0xF
    let fm : Nat × Nat :=
      if family = 0xF then
        let extended_family := (family_model_stepping >>> 20) &&& 0xFF
        let extended_model := (family_model_stepping >>> 12) &&& 0xF0
        (family + extended_family, model ||| extended_model)
      else (family, model)
    let family := fm.1
    let model := fm.2
    let manufacturer_ecx := read32 manufacturer 8
    let model :=
      if manufacturer_ecx = CPU_MANUFACTURER_INTEL ∧ family = 0x6 then
        model ||| ((family_model_stepping >>> 12) &&& 0xF0)
      else model
    let name :=
      if m.q 0x80000000 0x0 EAX ≥ 0x80000004 then
        leBytes16 (m.q 0x80000002 0x0) ++ leBytes16 (m.q 0x80000003 0x0) ++
          leBytes16 (m.q 0x80000004 0x0)
      else s.name
    { family := family, model := model, stepping := stepping,
      manufacturer := manufacturer, name := name }
  else s

/-- The static initializer of the global `cpu_identity`: zero numeric fields
and the "Unknown" sentinel strings (zero-padded to the buffer sizes). -/
def cpu_identity_default : cpu_identity_t :=
  { family := 0,
    model := 0,
    stepping := 0,
    manufacturer := [0x55, 0x6E, 0x6B, 0x6E, 0x6F, 0x77, 0x6E, 0, 0, 0, 0, 0],
    name := [0x55, 0x6E, 0x6B, 0x6E, 0x6F, 0x77, 0x6E] ++ List.replicate 41 0 }

/-- Build a register oracle from a finite table of
((leaf, subleaf, register), value) entries, defaulting to 0. -/
def qOf : List ((Nat × Nat × Reg) × Nat) → Nat → Nat → Reg → Nat
  | [], _, _, _ => 0
  | e :: rest, l, sub, r => if (l, sub, r) = e.1 then e.2 else qOf rest l sub r

/-! Proof-layer definitions: the effect of each decoder stage is re-expressed
as oracle-determined data (an optional overwrite per scalar field, a list of
cache-array writes, event bits for the instrumentation flags), which the
characterization lemmas below prove equal to the embedded source functions.
This powers the frame, idempotence and invariant theorems. -/

/-- Apply a list of cache-array writes in order (later writes win). -/
def applyWrites (ws : List (Fin 3 × cpu_cache_level_specs))
    (c : Fin 3 → cpu_cache_level_specs) : Fin 3 → cpu_cache_level_specs :=
  ws.foldl (fun acc w => Function.update acc w.1 w.2) c

/-- The last write to index `i` in a write list, if any. -/
def lastW : List (Fin 3 × cpu_cache_level_specs) → Fin 3 → Option cpu_cache_level_specs
  | [], _ => none
  | w :: ws, i => (lastW ws i).orElse (fun _ => if w.1 = i then some w.2 else none)

/-- The cache-array write performed by one AMD leaf 0x8000001D loop body,
as a function of the oracle and of the cache-line size and threads-per-core
values read from the state (empty if the descriptor does not qualify or the
write would be out of bounds). -/
def amdBodyW (m : Machine) (subfunc line tpc : Nat) :
    List (Fin 3 × cpu_cache_level_specs) :=
  let out := m.q 0x8000001D subfunc
  if out EAX &&& 0x1 ≠ 0 then
    if h : 0 ≤ cache_idx_of (out EAX) ∧ cache_idx_of (out EAX) < 3 then
      [(⟨(cache_idx_of (out EAX)).toNat, by omega⟩,
        { data_cache_size :=
            (((out EBX >>> 12) &&& 0x3FF) + 1) * ((out EBX >>> 22) + 1) * (out ECX + 1) *
              line,
          attached_core_count := (((out EAX >>> 14) &&& 0xFFF) + 1) / tpc })]
    else []
  else []

/-- Whether one AMD loop body performs an out-of-bounds write. -/
def amdBodyOob (m : Machine) (subfunc : Nat) : Bool :=
  decide (m.q 0x8000001D subfunc EAX &&& 0x1 ≠ 0 ∧
    ¬(0 ≤ cache_idx_of (m.q 0x8000001D subfunc EAX) ∧
      cache_idx_of (m.q 0x8000001D subfunc EAX) < 3))

/-- Whether one AMD loop body processes a qualifying (data/unified)
descriptor, i.e. performs the division by `threads_per_core`. -/
def amdBodyQual (m : Machine) (subfunc : Nat) : Bool :=
  decide (m.q 0x8000001D subfunc EAX &&& 0x1 ≠ 0)

/-- The write list of the whole AMD cache do-while loop. -/
def amdLoopWs (m : Machine) (fuel subfunc line tpc : Nat) :
    List (Fin 3 × cpu_cache_level_specs) :=
  match fuel with
  | 0 => []
  | fuel + 1 =>
    amdBodyW m subfunc line tpc ++
      (if m.q 0x8000001D (subfunc + 1) EAX &&& 0xF ≠ 0 then
        amdLoopWs m fuel (subfunc + 1) line tpc
      else [])

/-- Whether the AMD cache loop performs an out-of-bounds write. -/
def amdLoopOob (m : Machine) (fuel subfunc : Nat) : Bool :=
  match fuel with
  | 0 => false
  | fuel + 1 =>
    amdBodyOob m subfunc ||
      (if m.q 0x8000001D (subfunc + 1) EAX &&& 0xF ≠ 0 then
        amdLoopOob m fuel (subfunc + 1)
      else false)

/-- Whether the AMD cache loop performs a division by zero (i.e. processes
some qualifying descriptor while `threads_per_core` is 0). -/
def amdLoopDiv0 (m : Machine) (fuel subfunc tpc : Nat) : Bool :=
  match fuel with
  | 0 => false
  | fuel + 1 =>
    (amdBodyQual m subfunc && decide (tpc = 0)) ||
      (if m.q 0x8000001D (subfunc + 1) EAX &&& 0xF ≠ 0 then
        amdLoopDiv0 m fuel (subfunc + 1) tpc
      else false)

/-- The cache-array write performed by one Intel leaf 0x4 loop body
(the attached core count is clamped to the `core_count` read from the
state, passed here as `cc`). -/
def intelBodyW (m : Machine) (subfunc line tpc cc : Nat) :
    List (Fin 3 × cpu_cache_level_specs) :=
  let out := m.q 0x4 subfunc
  if out EAX &&& 0b1 ≠ 0 then
    if h : 0 ≤ cache_idx_of (out EAX) ∧ cache_idx_of (out EAX) < 3 then
      [(⟨(cache_idx_of (out EAX)).toNat, by omega⟩,
        { data_cache_size :=
            (((out EBX >>> 12) &&& 0x3FF) + 1) * ((out EBX >>> 22) + 1) * (out ECX + 1) *
              line,
          attached_core_count :=
            if (((out EAX >>> 14) &&& 0xFFF) + 1) / tpc ≤ cc then
              (((out EAX >>> 14) &&& 0xFFF) + 1) / tpc
            else cc })]
    else []
  else []

/-- Whether one Intel loop body performs an out-of-bounds write. -/
def intelBodyOob (m : Machine) (subfunc : Nat) : Bool :=
  decide (m.q 0x4 subfunc EAX &&& 0b1 ≠ 0 ∧
    ¬(0 ≤ cache_idx_of (m.q 0x4 subfunc EAX) ∧ cache_idx_of (m.q 0x4 subfunc EAX) < 3))

/-- Whether one Intel loop body processes a qualifying descriptor. -/
def intelBodyQual (m : Machine) (subfunc : Nat) : Bool :=
  decide (m.q 0x4 subfunc EAX &&& 0b1 ≠ 0)

/-- The write list of the whole Intel cache while loop. -/
def intelLoopWs (m : Machine) (fuel subfunc line tpc cc : Nat) :
    List (Fin 3 × cpu_cache_level_specs) :=
  match fuel with
  | 0 => []
  | fuel + 1 =>
    if m.q 0x4 subfunc EAX &&& 0xF ≠ 0 then
      intelBodyW m subfunc line tpc cc ++ intelLoopWs m fuel (subfunc + 1) line tpc cc
    else []

/-- Whether the Intel cache loop performs an out-of-bounds write. -/
def intelLoopOob (m : Machine) (fuel subfunc : Nat) : Bool :=
  match fuel with
  | 0 => false
  | fuel + 1 =>
    if m.q 0x4 subfunc EAX &&& 0xF ≠ 0 then
      intelBodyOob m subfunc || intelLoopOob m fuel (subfunc + 1)
    else false

/-- Whether the Intel cache loop performs a division by zero. -/
def intelLoopDiv0 (m : Machine) (fuel subfunc tpc : Nat) : Bool :=
  match fuel with
  | 0 => false
  | fuel + 1 =>
    if m.q 0x4 subfunc EAX &&& 0xF ≠ 0 then
      (intelBodyQual m subfunc && decide (tpc = 0)) || intelLoopDiv0 m fuel (subfunc + 1) tpc
    else false

/-- The `threads_per_core` value written by the AMD cores decoder
(always written). -/
def amdTpc (ctx : cpuid_ctx) (m : Machine) : Nat :=
  if ctx.max_standard_func ≥ 0xB then m.q 0xB 0x0 EBX &&& 0xFFFF
  else ((m.q 0x1 0x0 EDX >>> 28) &&& 0b1) + 1

/-- The `core_count` value written by the AMD cores decoder, if any branch
writes it. -/
def amdCc (ctx : cpuid_ctx) (m : Machine) : Option Nat :=
  if ctx.max_standard_func ≥ 0xB then
    some ((m.q 0xB 0x1 EBX &&& 0xFFFF) / (m.q 0xB 0x0 EBX &&& 0xFFFF))
  else
    let hyperthreaded := (m.q 0x1 0x0 EDX >>> 28) &&& 0b1
    if ctx.max_extended_func ≥ 0x80000008 then
      some (((m.q 0x80000008 0x0 ECX &&& 0xFF) + 1) >>> hyperthreaded)
    else if hyperthreaded ≠ 0 then
      if ctx.max_extended_func ≥ 0x80000001 then
        if m.q 0x80000001 0x0 ECX &&& (1 <<< 1) ≠ 0 then
          some ((((m.q 0x1 0x0 EBX >>> 16) &&& 0xFF)) >>> 1)
        else none
      else some ((((m.q 0x1 0x0 EBX >>> 16) &&& 0xFF)) >>> 1)
    else none

/-- Whether the AMD cores decoder divides by zero. -/
def amdCoresDiv0 (ctx : cpuid_ctx) (m : Machine) : Bool :=
  decide (ctx.max_standard_func ≥ 0xB ∧ m.q 0xB 0x0 EBX &&& 0xFFFF = 0)

/-- The `threads_per_core` value written by the Intel cores decoder
(always written). -/
def intelTpc (ctx : cpuid_ctx) (m : Machine) : Nat :=
  if ctx.max_standard_func ≥ 0xB then
    m.q (if ctx.max_standard_func ≥ 0x1F then 0x1F else 0xB) 0x0 EBX &&& 0xFFFF
  else ((m.q 0x1 0x0 EDX >>> 28) &&& 0b1) + 1

/-- The `core_count` value written by the Intel cores decoder, if any. -/
def intelCc (ctx : cpuid_ctx) (m : Machine) : Option Nat :=
  if ctx.max_standard_func ≥ 0xB then
    let hf : Nat := if ctx.max_standard_func ≥ 0x1F then 0x1F else 0xB
    some ((m.q hf 0x1 EBX &&& 0xFFFF) / (m.q hf 0x0 EBX &&& 0xFFFF))
  else
    let hyperthreaded := (m.q 0x1 0x0 EDX >>> 28) &&& 0b1
    if hyperthreaded ≠ 0 then
      some (((m.q 0x1 0x0 EBX >>> 16) &&& 0xFF) / (hyperthreaded + 1))
    else none

/-- Whether the Intel cores decoder divides by zero. -/
def intelCoresDiv0 (ctx : cpuid_ctx) (m : Machine) : Bool :=
  decide (ctx.max_standard_func ≥ 0xB ∧
    m.q (if ctx.max_standard_func ≥ 0x1F then 0x1F else 0xB) 0x0 EBX &&& 0xFFFF = 0)

/-- The `cache_line_size` value written by the AMD caches decoder, if any. -/
def amdLine (ctx : cpuid_ctx) (m : Machine) : Option Nat :=
  if ctx.max_extended_func ≥ 0x8000001D then
    if m.q 0x80000001 0x0 ECX &&& (1 <<< 22) ≠ 0 then
      some ((m.q 0x8000001D 0x0 EBX &&& 0x7F) + 1)
    else none
  else if ctx.max_extended_func ≥ 0x80000005 then
    some (m.q 0x80000005 0x0 ECX &&& 0xFF)
  else none

/-- The cache-array writes of the AMD caches decoder, given the
`threads_per_core` and `core_count` values read from the state. -/
def amdCachesWs (ctx : cpuid_ctx) (m : Machine) (fuel tpc cc : Nat) :
    List (Fin 3 × cpu_cache_level_specs) :=
  if ctx.max_extended_func ≥ 0x8000001D then
    if m.q 0x80000001 0x0 ECX &&& (1 <<< 22) ≠ 0 then
      amdLoopWs m fuel 0x0 ((m.q 0x8000001D 0x0 EBX &&& 0x7F) + 1) tpc
    else []
  else if ctx.max_extended_func ≥ 0x80000005 then
    (0, { data_cache_size := ((m.q 0x80000005 0x0 ECX >>> 24) &&& 0xFF) * KiB 1,
          attached_core_count := 1 }) ::
      (if ctx.max_extended_func ≥ 0x80000006 then
        [(1, { data_cache_size := ((m.q 0x80000006 0x0 ECX >>> 16) &&& 0xFFFF) * KiB 1,
               attached_core_count := 1 }),
         (2, { data_cache_size := ((m.q 0x80000006 0x0 EDX >>> 18) &&& 0x3FFFF) * KiB 512,
               attached_core_count := cc })]
      else [])
  else []

/-- Whether the AMD caches decoder performs an out-of-bounds write. -/
def amdCachesOob (ctx : cpuid_ctx) (m : Machine) (fuel : Nat) : Bool :=
  if ctx.max_extended_func ≥ 0x8000001D then
    if m.q 0x80000001 0x0 ECX &&& (1 <<< 22) ≠ 0 then amdLoopOob m fuel 0x0
    else false
  else false

/-- Whether the AMD caches decoder divides by zero. -/
def amdCachesDiv0 (ctx : cpuid_ctx) (m : Machine) (fuel tpc : Nat) : Bool :=
  if ctx.max_extended_func ≥ 0x8000001D then
    if m.q 0x80000001 0x0 ECX &&& (1 <<< 22) ≠ 0 then amdLoopDiv0 m fuel 0x0 tpc
    else false
  else false

/-- The `cache_line_size` value written by the Intel caches decoder, if any. -/
def intelLine (ctx : cpuid_ctx) (m : Machine) : Option Nat :=
  if ctx.max_standard_func ≥ 0x4 then some ((m.q 0x4 0x0 EBX &&& 0x7F) + 1)
  else none

/-- The cache-array writes of the Intel caches decoder. -/
def intelCachesWs (ctx : cpuid_ctx) (m : Machine) (fuel tpc cc : Nat) :
    List (Fin 3 × cpu_cache_level_specs) :=
  if ctx.max_standard_func ≥ 0x4 then
    intelLoopWs m fuel 0x0 ((m.q 0x4 0x0 EBX &&& 0x7F) + 1) tpc cc
  else []

/-- Whether the Intel caches decoder performs an out-of-bounds write. -/
def intelCachesOob (ctx : cpuid_ctx) (m : Machine) (fuel : Nat) : Bool :=
  if ctx.max_standard_func ≥ 0x4 then intelLoopOob m fuel 0x0 else false

/-- Whether the Intel caches decoder divides by zero. -/
def intelCachesDiv0 (ctx : cpuid_ctx) (m : Machine) (fuel tpc : Nat) : Bool :=
  if ctx.max_standard_func ≥ 0x4 then intelLoopDiv0 m fuel 0x0 tpc else false

/-- The instruction-set transformation of the AMD vendor-instructions stage. -/
def amdInstrChain (ctx : cpuid_ctx) (m : Machine) (x : Nat) : Nat :=
  let x :=
    if ctx.max_standard_func ≥ 0xB then
      let avx512_available : Nat :=
        if m.q 0xD 0x5 EAX = 0x40 ∧ m.q 0xD 0x5 EBX = 0x340 then 1 else 0
      x ^^^ ((s32neg avx512_available ^^^ x) &&& AVX512F)
    else x
  if ctx.max_extended_func ≥ 0xB then
    update_inst_availability x (m.q 0x80000001 0x0 ECX) 21 TBM
  else x

/-- The instruction-set transformation of the Intel vendor-instructions
stage. -/
def intelInstrChain (ctx : cpuid_ctx) (m : Machine) (x : Nat) : Nat :=
  if ctx.max_standard_func ≥ 0x7 then
    update_inst_availability x (m.q 0x7 0x0 EBX) 16 AVX512F
  else x

/-- The leaf context resolved inside cpu_specs_init when CPUID is
available. -/
def ctxOf (m : Machine) : cpuid_ctx :=
  { max_standard_func := m.q 0x0 0x0 EAX, max_extended_func := m.q 0x80000000 0x0 EAX }

/-- The overall `threads_per_core` overwrite of one detection pass. -/
def initTpc (m : Machine) : Option Nat :=
  if cpuid_is_available m then
    if m.q 0x0 0x0 ECX = CPU_MANUFACTURER_AMD then some (amdTpc (ctxOf m) m)
    else if m.q 0x0 0x0 ECX = CPU_MANUFACTURER_INTEL then some (intelTpc (ctxOf m) m)
    else none
  else none

/-- The overall `core_count` overwrite of one detection pass. -/
def initCc (m : Machine) : Option Nat :=
  if cpuid_is_available m then
    if m.q 0x0 0x0 ECX = CPU_MANUFACTURER_AMD then amdCc (ctxOf m) m
    else if m.q 0x0 0x0 ECX = CPU_MANUFACTURER_INTEL then intelCc (ctxOf m) m
    else none
  else none

/-- The overall `cache_line_size` overwrite of one detection pass. -/
def initLine (m : Machine) : Option Nat :=
  if cpuid_is_available m then
    if m.q 0x0 0x0 ECX = CPU_MANUFACTURER_AMD then amdLine (ctxOf m) m
    else if m.q 0x0 0x0 ECX = CPU_MANUFACTURER_INTEL then intelLine (ctxOf m) m
    else none
  else none

/-- The overall cache-array writes of one detection pass, given the
`core_count` value `cc0` held by the state at entry. -/
def initWs (m : Machine) (fuel cc0 : Nat) : List (Fin 3 × cpu_cache_level_specs) :=
  if cpuid_is_available m then
    if m.q 0x0 0x0 ECX = CPU_MANUFACTURER_AMD then
      amdCachesWs (ctxOf m) m fuel (amdTpc (ctxOf m) m) ((amdCc (ctxOf m) m).getD cc0)
    else if m.q 0x0 0x0 ECX = CPU_MANUFACTURER_INTEL then
      intelCachesWs (ctxOf m) m fuel (intelTpc (ctxOf m) m) ((intelCc (ctxOf m) m).getD cc0)
    else []
  else []

/-- The overall instruction-set transformation of one detection pass. -/
def initInstr (m : Machine) (x : Nat) : Nat :=
  if cpuid_is_available m then
    if m.q 0x0 0x0 ECX = CPU_MANUFACTURER_AMD then
      amdInstrChain (ctxOf m) m (common_chain (ctxOf m) m x)
    else if m.q 0x0 0x0 ECX = CPU_MANUFACTURER_INTEL then
      intelInstrChain (ctxOf m) m (common_chain (ctxOf m) m x)
    else common_chain (ctxOf m) m x
  else x

/-- Whether one detection pass performs an out-of-bounds write. -/
def initOob (m : Machine) (fuel : Nat) : Bool :=
  if cpuid_is_available m then
    if m.q 0x0 0x0 ECX = CPU_MANUFACTURER_AMD then amdCachesOob (ctxOf m) m fuel
    else if m.q 0x0 0x0 ECX = CPU_MANUFACTURER_INTEL then intelCachesOob (ctxOf m) m fuel
    else false
  else false

/-- Whether one detection pass performs a division by zero. -/
def initDiv0 (m : Machine) (fuel : Nat) : Bool :=
  if cpuid_is_available m then
    if m.q 0x0 0x0 ECX = CPU_MANUFACTURER_AMD then
      amdCoresDiv0 (ctxOf m) m || amdCachesDiv0 (ctxOf m) m fuel (amdTpc (ctxOf m) m)
    else if m.q 0x0 0x0 ECX = CPU_MANUFACTURER_INTEL then
      intelCoresDiv0 (ctxOf m) m || intelCachesDiv0 (ctxOf m) m fuel (intelTpc (ctxOf m) m)
    else false
  else false

/-- A function on instruction bitsets that forces an oracle-determined set of
bits and leaves every other bit unchanged (the semantic content of the
set-or-clear law). -/
def Forcing (g : Nat → Nat) : Prop :=
  ∃ φ : Nat → Option Bool, ∀ x j, (g x).testBit j = (φ j).getD (x.testBit j)

/-! Concrete machines used by the counterexample and witness theorems. -/

/-- Wrap an availability bit and a register table into a Machine.  The
`% 2 ^ 32` wrap makes the 32-bit register bound definitional; table values
below `2 ^ 32` are returned unchanged. -/
def machineOf (avail : Bool) (tbl : List ((Nat × Nat × Reg) × Nat)) : Machine :=
  { avail := avail,
    q := fun l sub r => qOf tbl l sub r % 2 ^ 32,
    hq := by
      intro l sub r
      exact Nat.mod_lt _ (by norm_num) }

/-- A machine on which the CPUID availability probe fails. -/
def mOff : Machine := machineOf false []

/-- An available machine reporting leaf maxima 0xB / 0x8000001D. -/
def mC8 : Machine :=
  machineOf true [((0x0, 0x0, EAX), 0xB), ((0x80000000, 0x0, EAX), 0x8000001D)]

/-- An AMD machine whose single L1 data-cache descriptor reports 8 attached
threads while the topology reports 1 core and 1 thread per core: the AMD
cache decoder then stores attached_core_count = 8 > core_count = 1. -/
def mC3 : Machine :=
  machineOf true
    [((0x0, 0x0, EAX), 0xB), ((0x0, 0x0, ECX), 0x444D4163),
     ((0x80000000, 0x0, EAX), 0x8000001D),
     ((0xB, 0x0, EBX), 1), ((0xB, 0x1, EBX), 1),
     ((0x80000001, 0x0, ECX), 0x400000),
     ((0x8000001D, 0x0, EAX), 114721), ((0x8000001D, 0x0, EBX), 63)]

/-- An Intel machine with 2 cores, 1 thread per core, and a single L1 data
cache descriptor reporting 8 attached threads (clamped by the decoder). -/
def mIC3 : Machine :=
  machineOf true
    [((0x0, 0x0, EAX), 0xB), ((0x0, 0x0, ECX), 0x6C65746E),
     ((0xB, 0x0, EBX), 1), ((0xB, 0x1, EBX), 2),
     ((0x4, 0x0, EAX), 114721), ((0x4, 0x0, EBX), 63)]

/-- A machine whose first leaf 0x8000001D descriptor is a qualifying data
cache reporting level 0 (write index -1). -/
def mAC9 : Machine :=
  machineOf true [((0x80000001, 0x0, ECX), 0x400000), ((0x8000001D, 0x0, EAX), 1)]

/-- A machine whose first leaf 0x4 descriptor is a qualifying data cache
reporting level 0 (write index -1). -/
def mIC9 : Machine :=
  machineOf true [((0x4, 0x0, EAX), 1)]

/-- An AMD machine whose leaf 0xB subleaf 0 reports 0 threads per core. -/
def mAD0 : Machine :=
  machineOf true [((0x0, 0x0, EAX), 0xB), ((0x0, 0x0, ECX), 0x444D4163)]

/-- An Intel machine whose leaf 0xB subleaf 0 reports 0 threads per core. -/
def mID0 : Machine :=
  machineOf true [((0x0, 0x0, EAX), 0xB), ((0x0, 0x0, ECX), 0x6C65746E)]

/-- An available machine with an unknown vendor signature, max standard
leaf 1, max extended leaf 0, and only the SSE1 bit set in leaf 1 EDX. -/
def mC4w : Machine :=
  machineOf true [((0x0, 0x0, EAX), 0x1), ((0x1, 0x0, EDX), 0x2000000)]

/-- A machine whose leaf-1 EAX encodes base family 0xF (the escape value),
extended family 2, extended model 3, base model 1, stepping 5. -/
def mC6a : Machine :=
  machineOf true [((0x1, 0x0, EAX), 0x232F15)]

/-- An Intel machine whose leaf-1 EAX encodes base family 6, extended model
3, base model 2, stepping 1. -/
def mC6b : Machine :=
  machineOf true [((0x0, 0x0, ECX), 0x6C65746E), ((0x1, 0x0, EAX), 0x30621)]

/-- A machine with the AuthenticAMD leaf-0 signature registers. -/
def mC7 : Machine :=
  machineOf true
    [((0x0, 0x0, EBX), 0x68747541), ((0x0, 0x0, EDX), 0x69746E65),
     ((0x0, 0x0, ECX), 0x444D4163)]

/-- An AMD-style cache oracle whose single L1 data descriptor reports 1
attached thread (consistent with 1 core and 1 thread per core). -/
def mAC3 : Machine :=
  machineOf true [((0x80000001, 0x0, ECX), 0x400000), ((0x8000001D, 0x0, EAX), 33),
    ((0x8000001D, 0x0, EBX), 63)]

-- END-OF-DEFINITIONS

/-! Theorems. -/

theorem force_xor_testBit (b x k j : Nat) (hb : b ≤ 1) (hk : k < 32) :
    (x ^^^ ((s32neg b ^^^ x) &&& 2 ^ k)).testBit j =
      if j = k then decide (b = 1) else x.testBit j := by
  interval_cases b
  · have h0 : s32neg 0 = 0 := by simp [s32neg]
    rw [h0]
    by_cases h : j = k
    · subst h
      simp [Nat.testBit_xor, Nat.testBit_and, Nat.testBit_two_pow_self]
    · simp [Nat.testBit_xor, Nat.testBit_and, Nat.testBit_two_pow_of_ne (Ne.symm h), h]
  · have h1 : s32neg 1 = 2 ^ 32 - 1 := by
      rw [s32neg]
      rw [Nat.mod_eq_of_lt (by norm_num)]
    rw [h1]
    by_cases h : j = k
    · subst h
      simp only [if_pos rfl, Nat.testBit_xor, Nat.testBit_and,
        Nat.testBit_two_pow_self, Nat.testBit_two_pow_sub_one]
      simp only [hk, decide_True, Bool.true_xor, Bool.and_true]
      cases hx : x.testBit j <;> simp
    · simp [Nat.testBit_xor, Nat.testBit_and, Nat.testBit_two_pow_of_ne (Ne.symm h), h]

theorem update_testBit (x f bit k j : Nat) (hk : k < 32) :
    (update_inst_availability x f bit (2 ^ k)).testBit j =
      if j = k then f.testBit bit else x.testBit j := by
  have h1 : (f >>> bit) &&& 0b1 ≤ 0b1 := Nat.and_le_right
  rw [update_inst_availability, force_xor_testBit _ _ _ _ h1 hk]
  have h2 : decide ((f >>> bit) &&& 0b1 = 1) = f.testBit bit := by
    rw [Nat.and_one_is_mod, Nat.testBit_to_div_mod, Nat.shiftRight_eq_div_pow]
  rw [h2]

theorem forcing_id : Forcing (fun x => x) :=
  ⟨fun _ => none, fun x j => rfl⟩

theorem forcing_update_comp {g : Nat → Nat} (hg : Forcing g) (f bit F k : Nat)
    (hF : F = 2 ^ k) (hk : k < 32) :
    Forcing (fun x => update_inst_availability (g x) f bit F) := by
  obtain ⟨φ, hφ⟩ := hg
  refine ⟨fun j => if j = k then some (f.testBit bit) else φ j, fun x j => ?_⟩
  rw [hF, update_testBit _ _ _ _ _ hk]
  by_cases h : j = k <;> simp [h, hφ]

theorem forcing_force_comp {g : Nat → Nat} (hg : Forcing g) (b F k : Nat)
    (hb : b ≤ 1) (hF : F = 2 ^ k) (hk : k < 32) :
    Forcing (fun x => g x ^^^ ((s32neg b ^^^ g x) &&& F)) := by
  obtain ⟨φ, hφ⟩ := hg
  refine ⟨fun j => if j = k then some (decide (b = 1)) else φ j, fun x j => ?_⟩
  rw [hF, force_xor_testBit _ _ _ _ hb hk]
  by_cases h : j = k <;> simp [h, hφ]

theorem forcing_ite (c : Prop) [Decidable c] {g h : Nat → Nat}
    (hg : Forcing g) (hh : Forcing h) : Forcing (fun x => if c then g x else h x) := by
  by_cases hc : c
  · obtain ⟨φ, hφ⟩ := hg
    exact ⟨φ, fun x j => by simp [hc, hφ]⟩
  · obtain ⟨φ, hφ⟩ := hh
    exact ⟨φ, fun x j => by simp [hc, hφ]⟩

theorem Forcing.absorb {g : Nat → Nat} (hg : Forcing g) (x : Nat) : g (g x) = g x := by
  obtain ⟨φ, hφ⟩ := hg
  apply Nat.eq_of_testBit_eq
  intro j
  rw [hφ, hφ]
  cases φ j <;> simp

theorem forcing_common (ctx : cpuid_ctx) (m : Machine) : Forcing (common_chain ctx m) := by
  unfold common_chain
  refine forcing_ite _ (forcing_ite _ ?_ ?_) ?_
  · refine forcing_update_comp ?_ _ _ _ 11 (by decide) (by decide)
    refine forcing_update_comp ?_ _ _ _ 14 (by decide) (by decide)
    refine forcing_update_comp ?_ _ _ _ 7 (by decide) (by decide)
    refine forcing_update_comp ?_ _ _ _ 12 (by decide) (by decide)
    refine forcing_update_comp ?_ _ _ _ 13 (by decide) (by decide)
    refine forcing_update_comp ?_ _ _ _ 17 (by decide) (by decide)
    refine forcing_update_comp ?_ _ _ _ 6 (by decide) (by decide)
    refine forcing_update_comp ?_ _ _ _ 10 (by decide) (by decide)
    refine forcing_update_comp ?_ _ _ _ 5 (by decide) (by decide)
    refine forcing_update_comp ?_ _ _ _ 4 (by decide) (by decide)
    refine forcing_update_comp ?_ _ _ _ 8 (by decide) (by decide)
    refine forcing_update_comp ?_ _ _ _ 3 (by decide) (by decide)
    refine forcing_update_comp ?_ _ _ _ 2 (by decide) (by decide)
    refine forcing_update_comp ?_ _ _ _ 1 (by decide) (by decide)
    refine forcing_update_comp ?_ _ _ _ 0 (by decide) (by decide)
    refine forcing_update_comp ?_ _ _ _ 16 (by decide) (by decide)
    exact forcing_id
  · refine forcing_update_comp ?_ _ _ _ 14 (by decide) (by decide)
    refine forcing_update_comp ?_ _ _ _ 7 (by decide) (by decide)
    refine forcing_update_comp ?_ _ _ _ 12 (by decide) (by decide)
    refine forcing_update_comp ?_ _ _ _ 13 (by decide) (by decide)
    refine forcing_update_comp ?_ _ _ _ 17 (by decide) (by decide)
    refine forcing_update_comp ?_ _ _ _ 6 (by decide) (by decide)
    refine forcing_update_comp ?_ _ _ _ 10 (by decide) (by decide)
    refine forcing_update_comp ?_ _ _ _ 5 (by decide) (by decide)
    refine forcing_update_comp ?_ _ _ _ 4 (by decide) (by decide)
    refine forcing_update_comp ?_ _ _ _ 8 (by decide) (by decide)
    refine forcing_update_comp ?_ _ _ _ 3 (by decide) (by decide)
    refine forcing_update_comp ?_ _ _ _ 2 (by decide) (by decide)
    refine forcing_update_comp ?_ _ _ _ 1 (by decide) (by decide)
    refine forcing_update_comp ?_ _ _ _ 0 (by decide) (by decide)
    refine forcing_update_comp ?_ _ _ _ 16 (by decide) (by decide)
    exact forcing_id
  · refine forcing_update_comp ?_ _ _ _ 17 (by decide) (by decide)
    refine forcing_update_comp ?_ _ _ _ 6 (by decide) (by decide)
    refine forcing_update_comp ?_ _ _ _ 10 (by decide) (by decide)
    refine forcing_update_comp ?_ _ _ _ 5 (by decide) (by decide)
    refine forcing_update_comp ?_ _ _ _ 4 (by decide) (by decide)
    refine forcing_update_comp ?_ _ _ _ 8 (by decide) (by decide)
    refine forcing_update_comp ?_ _ _ _ 3 (by decide) (by decide)
    refine forcing_update_comp ?_ _ _ _ 2 (by decide) (by decide)
    refine forcing_update_comp ?_ _ _ _ 1 (by decide) (by decide)
    refine forcing_update_comp ?_ _ _ _ 0 (by decide) (by decide)
    refine forcing_update_comp ?_ _ _ _ 16 (by decide) (by decide)
    exact forcing_id

theorem forcing_amdInstr (ctx : cpuid_ctx) (m : Machine) : Forcing (amdInstrChain ctx m) := by
  unfold amdInstrChain
  have hb : (if m.q 0xD 0x5 EAX = 0x40 ∧ m.q 0xD 0x5 EBX = 0x340 then (1 : Nat) else 0) ≤ 1 := by
    split <;> simp
  have hinner : Forcing (fun x =>
      if ctx.max_standard_func ≥ 0xB then
        x ^^^ ((s32neg (if m.q 0xD 0x5 EAX = 0x40 ∧ m.q 0xD 0x5 EBX = 0x340 then 1 else 0) ^^^ x)
          &&& AVX512F)
      else x) := by
    refine forcing_ite _ ?_ forcing_id
    exact forcing_force_comp forcing_id _ AVX512F 9 hb (by decide) (by decide)
  refine forcing_ite _ ?_ hinner
  exact forcing_update_comp hinner _ _ TBM 15 (by decide) (by decide)

theorem forcing_intelInstr (ctx : cpuid_ctx) (m : Machine) : Forcing (intelInstrChain ctx m) := by
  unfold intelInstrChain
  refine forcing_ite _ ?_ ?_
  · exact forcing_update_comp forcing_id _ _ _ 9 (by decide) (by decide)
  · exact forcing_id

theorem forcing_comp {g h : Nat → Nat} (hg : Forcing g) (hh : Forcing h) :
    Forcing (fun x => h (g x)) := by
  obtain ⟨φ, hφ⟩ := hg
  obtain ⟨ψ, hψ⟩ := hh
  refine ⟨fun j => (ψ j).orElse (fun _ => φ j), fun x j => ?_⟩
  rw [hψ, hφ]
  cases hj : ψ j <;> cases hj2 : φ j <;> simp [hj, hj2, Option.orElse]

theorem forcing_initInstr (m : Machine) : Forcing (initInstr m) := by
  unfold initInstr
  refine forcing_ite _ (forcing_ite _ ?_ (forcing_ite _ ?_ ?_)) forcing_id
  · exact forcing_comp (forcing_common _ _) (forcing_amdInstr _ _)
  · exact forcing_comp (forcing_common _ _) (forcing_intelInstr _ _)
  · exact forcing_common _ _

theorem applyWrites_nil (c : Fin 3 → cpu_cache_level_specs) : applyWrites [] c = c := rfl

theorem applyWrites_cons (w : Fin 3 × cpu_cache_level_specs) (ws : List _)
    (c : Fin 3 → cpu_cache_level_specs) :
    applyWrites (w :: ws) c = applyWrites ws (Function.update c w.1 w.2) := rfl

theorem applyWrites_append (a b : List (Fin 3 × cpu_cache_level_specs))
    (c : Fin 3 → cpu_cache_level_specs) :
    applyWrites (a ++ b) c = applyWrites b (applyWrites a c) := by
  simp [applyWrites, List.foldl_append]

theorem applyWrites_apply :
    ∀ (ws : List (Fin 3 × cpu_cache_level_specs)) (c : Fin 3 → cpu_cache_level_specs) (i : Fin 3),
      applyWrites ws c i = (lastW ws i).getD (c i) := by
  intro ws
  induction ws with
  | nil => intro c i; rfl
  | cons w ws ih =>
    intro c i
    rw [applyWrites_cons, ih, lastW]
    cases h : lastW ws i
    · have hcases : i = w.1 ∨ ¬i = w.1 := by omega
      simp only [Option.orElse, Option.getD_none]
      by_cases hw : w.1 = i
      · simp [Function.update_apply, hw]
      · have hw' : ¬i = w.1 := fun h' => hw h'.symm
        simp [Function.update_apply, hw, hw']
    · simp [h, Option.orElse]

theorem applyWrites_absorb (ws : List (Fin 3 × cpu_cache_level_specs))
    (c : Fin 3 → cpu_cache_level_specs) :
    applyWrites ws (applyWrites ws c) = applyWrites ws c := by
  funext i
  rw [applyWrites_apply, applyWrites_apply]
  cases lastW ws i <;> simp

theorem lastW_mem {ws : List (Fin 3 × cpu_cache_level_specs)} {i : Fin 3}
    {v : cpu_cache_level_specs} :
    lastW ws i = some v → (i, v) ∈ ws := by
  induction ws with
  | nil => simp [lastW]
  | cons w ws ih =>
    intro h
    rw [lastW] at h
    cases hw : lastW ws i with
    | some u =>
      rw [hw] at h
      simp only [Option.orElse] at h
      have hv : u = v := by injection h
      subst hv
      exact List.mem_cons_of_mem _ (ih hw)
    | none =>
      rw [hw] at h
      simp only [Option.orElse] at h
      by_cases he : w.1 = i
      · rw [if_pos he] at h
        have hv : w.2 = v := by injection h
        have hwv : (i, v) = w := by
          cases w
          simp_all
        rw [hwv]
        exact List.mem_cons_self _ _
      · rw [if_neg he] at h
        exact absurd h (by simp)

theorem amd_body_eq (m : Machine) (subfunc : Nat) (s : cpu_specs_t) :
    amd_cache_body m subfunc s =
      { s with
        cache_level_specs :=
          applyWrites (amdBodyW m subfunc s.cache_line_size s.threads_per_core)
            s.cache_level_specs,
        oob_write := s.oob_write || amdBodyOob m subfunc,
        div_by_zero := s.div_by_zero ||
          (amdBodyQual m subfunc && decide (s.threads_per_core = 0)) } := by
  unfold amd_cache_body amdBodyW amdBodyOob amdBodyQual writeCacheState recordDiv
  dsimp only
  split
  next h1 =>
    have h1' : m.q 0x8000001D subfunc EAX % 2 = 1 := by
      rw [Nat.and_one_is_mod] at h1
      omega
    split
    next h2 =>
      have ha : (0 : Int) ≤ cache_idx_of (m.q 0x8000001D subfunc EAX) := h2.1
      have hb : ¬(3 : Int) ≤ cache_idx_of (m.q 0x8000001D subfunc EAX) := by
        have := h2.2
        omega
      simp [h1', ha, hb, applyWrites]
    next h2 =>
      by_cases hc : (0 : Int) ≤ cache_idx_of (m.q 0x8000001D subfunc EAX)
      · have hb : (3 : Int) ≤ cache_idx_of (m.q 0x8000001D subfunc EAX) := by
          rw [not_and] at h2
          have := h2 hc
          omega
        simp [h1', hc, hb, applyWrites]
      · simp [h1', hc, applyWrites]
  next h1 =>
    have h1' : ¬m.q 0x8000001D subfunc EAX % 2 = 1 := by
      rw [Nat.and_one_is_mod, not_not] at h1
      omega
    simp [h1', applyWrites]

theorem amd_loop_eq (m : Machine) : ∀ (fuel subfunc : Nat) (s : cpu_specs_t),
    amd_cache_loop m fuel subfunc s =
      { s with
        cache_level_specs :=
          applyWrites (amdLoopWs m fuel subfunc s.cache_line_size s.threads_per_core)
            s.cache_level_specs,
        oob_write := s.oob_write || amdLoopOob m fuel subfunc,
        div_by_zero := s.div_by_zero || amdLoopDiv0 m fuel subfunc s.threads_per_core } := by
  intro fuel
  induction fuel with
  | zero =>
    intro subfunc s
    simp [amd_cache_loop, amdLoopWs, amdLoopOob, amdLoopDiv0, applyWrites]
  | succ fuel ih =>
    intro subfunc s
    simp only [amd_cache_loop, amdLoopWs, amdLoopOob, amdLoopDiv0]
    rw [amd_body_eq]
    by_cases hv : m.q 0x8000001D (subfunc + 1) EAX &&& 0xF ≠ 0
    · rw [if_pos hv, if_pos hv, if_pos hv, if_pos hv, ih]
      simp [applyWrites_append, Bool.or_assoc]
    · rw [if_neg hv, if_neg hv, if_neg hv, if_neg hv]
      simp [Bool.or_assoc]

theorem intel_body_eq (m : Machine) (subfunc : Nat) (s : cpu_specs_t) :
    intel_cache_body m subfunc s =
      { s with
        cache_level_specs :=
          applyWrites
            (intelBodyW m subfunc s.cache_line_size s.threads_per_core s.core_count)
            s.cache_level_specs,
        oob_write := s.oob_write || intelBodyOob m subfunc,
        div_by_zero := s.div_by_zero ||
          (intelBodyQual m subfunc && decide (s.threads_per_core = 0)) } := by
  unfold intel_cache_body intelBodyW intelBodyOob intelBodyQual writeCacheState recordDiv
  dsimp only
  split
  next h1 =>
    have h1' : m.q 0x4 subfunc EAX % 2 = 1 := by
      rw [Nat.and_one_is_mod] at h1
      omega
    split
    next h2 =>
      have ha : (0 : Int) ≤ cache_idx_of (m.q 0x4 subfunc EAX) := h2.1
      have hb : ¬(3 : Int) ≤ cache_idx_of (m.q 0x4 subfunc EAX) := by
        have := h2.2
        omega
      simp [h1', ha, hb, applyWrites]
    next h2 =>
      by_cases hc : (0 : Int) ≤ cache_idx_of (m.q 0x4 subfunc EAX)
      · have hb : (3 : Int) ≤ cache_idx_of (m.q 0x4 subfunc EAX) := by
          rw [not_and] at h2
          have := h2 hc
          omega
        simp [h1', hc, hb, applyWrites]
      · simp [h1', hc, applyWrites]
  next h1 =>
    have h1' : ¬m.q 0x4 subfunc EAX % 2 = 1 := by
      rw [Nat.and_one_is_mod, not_not] at h1
      omega
    simp [h1', applyWrites]

theorem intel_loop_eq (m : Machine) : ∀ (fuel subfunc : Nat) (s : cpu_specs_t),
    intel_cache_loop m fuel subfunc s =
      { s with
        cache_level_specs :=
          applyWrites
            (intelLoopWs m fuel subfunc s.cache_line_size s.threads_per_core s.core_count)
            s.cache_level_specs,
        oob_write := s.oob_write || intelLoopOob m fuel subfunc,
        div_by_zero := s.div_by_zero || intelLoopDiv0 m fuel subfunc s.threads_per_core } := by
  intro fuel
  induction fuel with
  | zero =>
    intro subfunc s
    simp [intel_cache_loop, intelLoopWs, intelLoopOob, intelLoopDiv0, applyWrites]
  | succ fuel ih =>
    intro subfunc s
    simp only [intel_cache_loop, intelLoopWs, intelLoopOob, intelLoopDiv0]
    by_cases hv : m.q 0x4 subfunc EAX &&& 0xF ≠ 0
    · rw [if_pos hv, if_pos hv, if_pos hv, if_pos hv, intel_body_eq, ih]
      simp [applyWrites_append, Bool.or_assoc]
    · rw [if_neg hv, if_neg hv, if_neg hv, if_neg hv]
      simp [Bool.or_assoc, applyWrites]

theorem amd_cores_eq (ctx : cpuid_ctx) (m : Machine) (s : cpu_specs_t) :
    cpu_specs_amd_get_cores_info ctx m s =
      { s with
        threads_per_core := amdTpc ctx m,
        core_count := (amdCc ctx m).getD s.core_count,
        div_by_zero := s.div_by_zero || amdCoresDiv0 ctx m } := by
  unfold cpu_specs_amd_get_cores_info amdTpc amdCc amdCoresDiv0 recordDiv
  dsimp only
  by_cases h1 : ctx.max_standard_func ≥ 0xB
  · simp [h1]
  · by_cases h2 : ctx.max_extended_func ≥ 0x80000008
    · simp [h1, h2]
    · by_cases h3 : m.q 0x1 0x0 EDX >>> 28 % 2 = 1
      · by_cases h4 : ctx.max_extended_func ≥ 0x80000001
        · by_cases h5 : m.q 0x80000001 0x0 ECX &&& 2 = 0
          · simp [h1, h2, h3, h4, h5]
          · simp [h1, h2, h3, h4, h5]
        · simp [h1, h2, h3, h4]
      · simp [h1, h2, h3]

theorem intel_cores_eq (ctx : cpuid_ctx) (m : Machine) (s : cpu_specs_t) :
    cpu_specs_intel_get_cores_info ctx m s =
      { s with
        threads_per_core := intelTpc ctx m,
        core_count := (intelCc ctx m).getD s.core_count,
        div_by_zero := s.div_by_zero || intelCoresDiv0 ctx m } := by
  unfold cpu_specs_intel_get_cores_info intelTpc intelCc intelCoresDiv0 recordDiv
  dsimp only
  by_cases h1 : ctx.max_standard_func ≥ 0xB
  · simp [h1]
  · by_cases h3 : m.q 0x1 0x0 EDX >>> 28 % 2 = 1
    · simp [h1, h3]
    · simp [h1, h3]

theorem amd_caches_eq (ctx : cpuid_ctx) (m : Machine) (fuel : Nat) (s : cpu_specs_t) :
    cpu_specs_amd_get_caches_info ctx m fuel s =
      { s with
        cache_level_specs :=
          applyWrites (amdCachesWs ctx m fuel s.threads_per_core s.core_count)
            s.cache_level_specs,
        cache_line_size := (amdLine ctx m).getD s.cache_line_size,
        oob_write := s.oob_write || amdCachesOob ctx m fuel,
        div_by_zero := s.div_by_zero || amdCachesDiv0 ctx m fuel s.threads_per_core } := by
  unfold cpu_specs_amd_get_caches_info amdCachesWs amdLine amdCachesOob amdCachesDiv0
  dsimp only
  by_cases h1 : ctx.max_extended_func ≥ 0x8000001D
  · simp only [if_pos h1]
    by_cases h2 : m.q 0x80000001 0x0 ECX &&& (1 <<< 22) ≠ 0
    · simp only [if_pos h2, amd_loop_eq]
      simp
    · simp only [if_neg h2]
      simp [applyWrites]
  · simp only [if_neg h1]
    by_cases h2 : ctx.max_extended_func ≥ 0x80000005
    · simp only [if_pos h2]
      by_cases h3 : ctx.max_extended_func ≥ 0x80000006
      · simp only [if_pos h3]
        simp [applyWrites]
      · simp only [if_neg h3]
        simp [applyWrites]
    · simp only [if_neg h2]
      simp [applyWrites]

theorem intel_caches_eq (ctx : cpuid_ctx) (m : Machine) (fuel : Nat) (s : cpu_specs_t) :
    cpu_specs_intel_get_caches_info ctx m fuel s =
      { s with
        cache_level_specs :=
          applyWrites (intelCachesWs ctx m fuel s.threads_per_core s.core_count)
            s.cache_level_specs,
        cache_line_size := (intelLine ctx m).getD s.cache_line_size,
        oob_write := s.oob_write || intelCachesOob ctx m fuel,
        div_by_zero := s.div_by_zero || intelCachesDiv0 ctx m fuel s.threads_per_core } := by
  unfold cpu_specs_intel_get_caches_info intelCachesWs intelLine intelCachesOob intelCachesDiv0
  dsimp only
  by_cases h1 : ctx.max_standard_func ≥ 0x4
  · simp only [if_pos h1, intel_loop_eq]
    simp
  · simp only [if_neg h1]
    simp [applyWrites]

theorem amd_instr_eq (ctx : cpuid_ctx) (m : Machine) (s : cpu_specs_t) :
    cpu_specs_amd_get_instructions ctx m s =
      { s with instructions := amdInstrChain ctx m s.instructions } := by
  unfold cpu_specs_amd_get_instructions amdInstrChain
  dsimp only
  by_cases h1 : ctx.max_standard_func ≥ 0xB <;>
    by_cases h2 : ctx.max_extended_func ≥ 0xB <;>
      simp [h1, h2]

theorem intel_instr_eq (ctx : cpuid_ctx) (m : Machine) (s : cpu_specs_t) :
    cpu_specs_intel_get_instructions ctx m s =
      { s with instructions := intelInstrChain ctx m s.instructions } := by
  unfold cpu_specs_intel_get_instructions intelInstrChain
  by_cases h1 : ctx.max_standard_func ≥ 0x7 <;> simp [h1]

theorem cpu_specs_init_eq (m : Machine) (fuel : Nat) (s : cpu_specs_t) :
    cpu_specs_init m fuel s =
      { cache_level_specs :=
          applyWrites (initWs m fuel s.core_count) s.cache_level_specs,
        cache_line_size := (initLine m).getD s.cache_line_size,
        threads_per_core := (initTpc m).getD s.threads_per_core,
        core_count := (initCc m).getD s.core_count,
        instructions := initInstr m s.instructions,
        oob_write := s.oob_write || initOob m fuel,
        div_by_zero := s.div_by_zero || initDiv0 m fuel } := by
  unfold cpu_specs_init initWs initTpc initCc initLine initInstr initOob initDiv0
    cpu_specs_get_common_instructions cpuid_is_available
  dsimp only
  by_cases hA : m.avail = true
  · simp only [if_pos hA]
    by_cases hV1 : m.q 0x0 0x0 ECX = CPU_MANUFACTURER_AMD
    · simp only [if_pos hV1, amd_cores_eq, amd_caches_eq, amd_instr_eq]
      simp [ctxOf, Bool.or_assoc]
    · simp only [if_neg hV1]
      by_cases hV2 : m.q 0x0 0x0 ECX = CPU_MANUFACTURER_INTEL
      · simp only [if_pos hV2, intel_cores_eq, intel_caches_eq, intel_instr_eq]
        simp [ctxOf, Bool.or_assoc]
      · simp only [if_neg hV2]
        simp [applyWrites, ctxOf]
  · simp only [if_neg hA]
    simp [applyWrites]

/-- C2: the shared flag-update primitive `update_inst_availability` forces
exactly the single-flag mask `2 ^ k` to the value of the probed bit — the
flag ends up equal to bit `flag_bit` of the probed register word, and every
other bit of the bitset is unchanged — for every current bitset, probed
word, probed bit position and flag position; every decode rule of the
common and vendor instruction decoders is an instance of this primitive at
a single-flag mask. -/
theorem claim_C2 (instructions flags flag_bit k : Nat) (hk : k < 32) :
    ((update_inst_availability instructions flags flag_bit (2 ^ k)).testBit k =
      flags.testBit flag_bit) ∧
    ∀ j, j ≠ k →
      (update_inst_availability instructions flags flag_bit (2 ^ k)).testBit j =
        instructions.testBit j := by
  constructor
  · rw [update_testBit _ _ _ _ _ hk, if_pos rfl]
  · intro j hj
    rw [update_testBit _ _ _ _ _ hk, if_neg hj]

/-- Witness for C2 at a concrete input: bitset 5, probed word 8, probed bit
3 (set), flag bit 1. -/
theorem witness_C2 :
    (update_inst_availability 5 8 3 (2 ^ 1)).testBit 1 = (8 : Nat).testBit 3 ∧
    (update_inst_availability 5 8 3 (2 ^ 1)).testBit 2 = (5 : Nat).testBit 2 :=
  ⟨(claim_C2 5 8 3 1 (by decide)).1, (claim_C2 5 8 3 1 (by decide)).2 2 (by decide)⟩

/-- C8: cpuid_ctx_get returns the {0, 0} context whenever the availability
probe fails — and, the query oracle being irrelevant in that case, it
issues no leaf query — and otherwise returns the leaf-0 and
extended-base-leaf maxima.  It is a pure function of the machine with no
access to the cpu_specs / cpu_identity state. -/
theorem claim_C8 (m : Machine) :
    (cpuid_is_available m = false →
      cpuid_ctx_get m = { max_standard_func := 0, max_extended_func := 0 }) ∧
    (cpuid_is_available m = false → ∀ m' : Machine, cpuid_is_available m' = false →
      cpuid_ctx_get m' = cpuid_ctx_get m) ∧
    (cpuid_is_available m = true →
      cpuid_ctx_get m =
        { max_standard_func := m.q 0x0 0x0 EAX,
          max_extended_func := m.q 0x80000000 0x0 EAX }) := by
  refine ⟨fun h => ?_, fun h m' h' => ?_, fun h => ?_⟩
  · simp [cpuid_ctx_get, h]
  · simp [cpuid_ctx_get, h, h']
  · simp [cpuid_ctx_get, h]

/-- Witness for C8: the unavailable machine yields {0, 0}; an available
machine yields its reported maxima. -/
theorem witness_C8 :
    cpuid_ctx_get mOff = { max_standard_func := 0, max_extended_func := 0 } ∧
    cpuid_ctx_get mC8 =
      { max_standard_func := 0xB, max_extended_func := 0x8000001D } :=
  ⟨(claim_C8 mOff).1 rfl, ((claim_C8 mC8).2.2 rfl).trans (by decide)⟩

/-- Counterexample to C1 as stated: on an x64 build the static baseline has
instructions = SSE1 | SSE2, so after a detection pass on a machine without
CPUID the cpu_specs singleton does not equal the baseline with zero
instruction flags. -/
theorem counterexample_C1 :
    cpu_specs_init mOff 1 (cpu_specs_default true) ≠
      { cpu_specs_default true with instructions := 0 } := by
  intro hEq
  have h := congrArg cpu_specs_t.instructions hEq
  simp [cpu_specs_init, cpuid_is_available, mOff, machineOf, cpu_specs_default, SSE1, SSE2] at h

/-- C1 (amended): if the availability probe fails, cpu_specs_init and
cpu_identity_init leave the singletons exactly at the static-initializer
baseline: L1 = 4 KiB / 1 attached core, L2 and L3 at 0 / 0, cache line 64,
1 thread per core, 1 core, instruction flags SSE1 | SSE2 on x64 builds
(zero on x86 builds), and identity fields zero with the "Unknown"
sentinel strings. -/
theorem claim_C1 (m : Machine) (fuel : Nat) (isa_x64 : Bool)
    (h : cpuid_is_available m = false) :
    cpu_specs_init m fuel (cpu_specs_default isa_x64) = cpu_specs_default isa_x64 ∧
    cpu_identity_init m cpu_identity_default = cpu_identity_default ∧
    (cpu_specs_default isa_x64).cache_level_specs 0 =
      { data_cache_size := 4096, attached_core_count := 1 } ∧
    (cpu_specs_default isa_x64).cache_level_specs 1 =
      { data_cache_size := 0, attached_core_count := 0 } ∧
    (cpu_specs_default isa_x64).cache_level_specs 2 =
      { data_cache_size := 0, attached_core_count := 0 } ∧
    (cpu_specs_default isa_x64).cache_line_size = 64 ∧
    (cpu_specs_default isa_x64).threads_per_core = 1 ∧
    (cpu_specs_default isa_x64).core_count = 1 ∧
    (cpu_specs_default isa_x64).instructions = (if isa_x64 then SSE1 ||| SSE2 else 0) ∧
    (cpu_specs_default isa_x64).oob_write = false ∧
    (cpu_specs_default isa_x64).div_by_zero = false ∧
    cpu_identity_default.family = 0 ∧
    cpu_identity_default.model = 0 ∧
    cpu_identity_default.stepping = 0 := by
  refine ⟨?_, ?_, ?_, ?_, ?_, rfl, rfl, rfl, rfl, rfl, rfl, rfl, rfl, rfl⟩
  · simp [cpu_specs_init, h]
  · simp [cpu_identity_init, h]
  · simp [cpu_specs_default, KiB]
  · simp [cpu_specs_default]
  · simp [cpu_specs_default]

/-- Witness for C1 at the machine without CPUID. -/
theorem witness_C1 :
    cpu_specs_init mOff 3 (cpu_specs_default true) = cpu_specs_default true ∧
    cpu_identity_init mOff cpu_identity_default = cpu_identity_default :=
  ⟨(claim_C1 mOff 3 true rfl).1, (claim_C1 mOff 3 true rfl).2.1⟩

theorem getD_absorb (o : Option Nat) (n : Nat) : o.getD (o.getD n) = o.getD n := by
  cases o <;> rfl

theorem initWs_cc_absorb (m : Machine) (fuel n : Nat) :
    initWs m fuel ((initCc m).getD n) = initWs m fuel n := by
  unfold initWs initCc
  by_cases hA : cpuid_is_available m = true
  · simp only [hA, if_pos]
    by_cases hV1 : m.q 0x0 0x0 ECX = CPU_MANUFACTURER_AMD
    · simp [hV1, getD_absorb]
    · by_cases hV2 : m.q 0x0 0x0 ECX = CPU_MANUFACTURER_INTEL
      · simp [hV1, hV2, getD_absorb,
          show CPU_MANUFACTURER_INTEL ≠ CPU_MANUFACTURER_AMD from by decide]
      · simp [hV1, hV2]
  · simp [hA]

/-- C5: both detection entry points are idempotent: for a fixed machine (and
fixed loop fuel), running cpu_specs_init twice from any starting state gives
the same cpu_specs as running it once, and likewise for cpu_identity_init. -/
theorem claim_C5 (m : Machine) (fuel : Nat) (s : cpu_specs_t) (sid : cpu_identity_t) :
    cpu_specs_init m fuel (cpu_specs_init m fuel s) = cpu_specs_init m fuel s ∧
    cpu_identity_init m (cpu_identity_init m sid) = cpu_identity_init m sid := by
  constructor
  · rw [cpu_specs_init_eq, cpu_specs_init_eq]
    simp [initWs_cc_absorb, getD_absorb, applyWrites_absorb, (forcing_initInstr m).absorb,
      Bool.or_assoc]
  · unfold cpu_identity_init
    by_cases hA : cpuid_is_available m = true
    · simp only [hA, if_pos]
      by_cases hname : m.q 0x80000000 0x0 EAX ≥ 0x80000004
      · simp [hname]
      · simp [hname]
    · simp [hA]

theorem common_chain_testBit_leaf1 (ctx : cpuid_ctx) (m : Machine) (x : Nat)
    (h7 : ¬ctx.max_standard_func ≥ 0x7) (j : Nat) :
    (common_chain ctx m x).testBit j =
      if j = 17 then (m.q 0x1 0x0 ECX).testBit 29
      else if j = 6 then (m.q 0x1 0x0 ECX).testBit 28
      else if j = 10 then (m.q 0x1 0x0 ECX).testBit 23
      else if j = 5 then (m.q 0x1 0x0 ECX).testBit 20
      else if j = 4 then (m.q 0x1 0x0 ECX).testBit 19
      else if j = 8 then (m.q 0x1 0x0 ECX).testBit 12
      else if j = 3 then (m.q 0x1 0x0 ECX).testBit 9
      else if j = 2 then (m.q 0x1 0x0 ECX).testBit 0
      else if j = 1 then (m.q 0x1 0x0 EDX).testBit 26
      else if j = 0 then (m.q 0x1 0x0 EDX).testBit 25
      else if j = 16 then (m.q 0x1 0x0 EDX).testBit 4
      else x.testBit j := by
  unfold common_chain
  rw [if_neg h7]
  simp only [show F16C = 2 ^ 17 from by decide, show AVX1 = 2 ^ 6 from by decide,
    show POPCNT = 2 ^ 10 from by decide, show SSE4_2 = 2 ^ 5 from by decide,
    show SSE4_1 = 2 ^ 4 from by decide, show FMA3 = 2 ^ 8 from by decide,
    show SSSE3 = 2 ^ 3 from by decide, show SSE3 = 2 ^ 2 from by decide,
    show SSE2 = 2 ^ 1 from by decide, show SSE1 = 2 ^ 0 from by decide,
    show RDTSCP = 2 ^ 16 from by decide]
  rw [update_testBit _ _ _ _ _ (by norm_num), update_testBit _ _ _ _ _ (by norm_num),
    update_testBit _ _ _ _ _ (by norm_num), update_testBit _ _ _ _ _ (by norm_num),
    update_testBit _ _ _ _ _ (by norm_num), update_testBit _ _ _ _ _ (by norm_num),
    update_testBit _ _ _ _ _ (by norm_num), update_testBit _ _ _ _ _ (by norm_num),
    update_testBit _ _ _ _ _ (by norm_num), update_testBit _ _ _ _ _ (by norm_num),
    update_testBit _ _ _ _ _ (by norm_num)]

/-- C4: on an available machine whose leaf-0 vendor signature matches
neither known constant, with max standard leaf 1 and max extended leaf 0,
a detection pass starting from the baseline equals the Common Instruction
Decoder alone applied to the baseline: the cache hierarchy, cache line
size, threads per core and core count stay at Defaults Provider values,
the vendor-exclusive flags (AVX512F bit 9, TBM bit 15) stay at their
baseline values, and each common-decoder flag equals exactly its probed
leaf-1 bit, every other instruction bit being unchanged. -/
theorem claim_C4 (m : Machine) (fuel : Nat) (isa_x64 : Bool)
    (hA : cpuid_is_available m = true)
    (hstd : m.q 0x0 0x0 EAX = 0x1) (hext : m.q 0x80000000 0x0 EAX = 0x0)
    (hv1 : m.q 0x0 0x0 ECX ≠ CPU_MANUFACTURER_AMD)
    (hv2 : m.q 0x0 0x0 ECX ≠ CPU_MANUFACTURER_INTEL) :
    cpu_specs_init m fuel (cpu_specs_default isa_x64) =
      cpu_specs_get_common_instructions
        { max_standard_func := 0x1, max_extended_func := 0x0 } m
        (cpu_specs_default isa_x64) ∧
    (cpu_specs_init m fuel (cpu_specs_default isa_x64)).cache_level_specs =
      (cpu_specs_default isa_x64).cache_level_specs ∧
    (cpu_specs_init m fuel (cpu_specs_default isa_x64)).cache_line_size = 64 ∧
    (cpu_specs_init m fuel (cpu_specs_default isa_x64)).threads_per_core = 1 ∧
    (cpu_specs_init m fuel (cpu_specs_default isa_x64)).core_count = 1 ∧
    (cpu_specs_init m fuel (cpu_specs_default isa_x64)).oob_write = false ∧
    (cpu_specs_init m fuel (cpu_specs_default isa_x64)).div_by_zero = false ∧
    (cpu_specs_init m fuel (cpu_specs_default isa_x64)).instructions.testBit 9 =
      (cpu_specs_default isa_x64).instructions.testBit 9 ∧
    (cpu_specs_init m fuel (cpu_specs_default isa_x64)).instructions.testBit 15 =
      (cpu_specs_default isa_x64).instructions.testBit 15 ∧
    (cpu_specs_init m fuel (cpu_specs_default isa_x64)).instructions.testBit 0 =
      (m.q 0x1 0x0 EDX).testBit 25 ∧
    (cpu_specs_init m fuel (cpu_specs_default isa_x64)).instructions.testBit 1 =
      (m.q 0x1 0x0 EDX).testBit 26 ∧
    (cpu_specs_init m fuel (cpu_specs_default isa_x64)).instructions.testBit 2 =
      (m.q 0x1 0x0 ECX).testBit 0 ∧
    (cpu_specs_init m fuel (cpu_specs_default isa_x64)).instructions.testBit 3 =
      (m.q 0x1 0x0 ECX).testBit 9 ∧
    (cpu_specs_init m fuel (cpu_specs_default isa_x64)).instructions.testBit 4 =
      (m.q 0x1 0x0 ECX).testBit 19 ∧
    (cpu_specs_init m fuel (cpu_specs_default isa_x64)).instructions.testBit 5 =
      (m.q 0x1 0x0 ECX).testBit 20 ∧
    (cpu_specs_init m fuel (cpu_specs_default isa_x64)).instructions.testBit 6 =
      (m.q 0x1 0x0 ECX).testBit 28 ∧
    (cpu_specs_init m fuel (cpu_specs_default isa_x64)).instructions.testBit 8 =
      (m.q 0x1 0x0 ECX).testBit 12 ∧
    (cpu_specs_init m fuel (cpu_specs_default isa_x64)).instructions.testBit 10 =
      (m.q 0x1 0x0 ECX).testBit 23 ∧
    (cpu_specs_init m fuel (cpu_specs_default isa_x64)).instructions.testBit 16 =
      (m.q 0x1 0x0 EDX).testBit 4 ∧
    (cpu_specs_init m fuel (cpu_specs_default isa_x64)).instructions.testBit 17 =
      (m.q 0x1 0x0 ECX).testBit 29 ∧
    ∀ j, j ∉ ([0, 1, 2, 3, 4, 5, 6, 8, 10, 16, 17] : List Nat) →
      (cpu_specs_init m fuel (cpu_specs_default isa_x64)).instructions.testBit j =
        (cpu_specs_default isa_x64).instructions.testBit j := by
  have hinit : cpu_specs_init m fuel (cpu_specs_default isa_x64) =
      cpu_specs_get_common_instructions
        { max_standard_func := 0x1, max_extended_func := 0x0 } m
        (cpu_specs_default isa_x64) := by
    unfold cpu_specs_init
    simp [hA, hstd, hext, hv1, hv2]
  have hb : ∀ j, (cpu_specs_init m fuel (cpu_specs_default isa_x64)).instructions.testBit j =
      if j = 17 then (m.q 0x1 0x0 ECX).testBit 29
      else if j = 6 then (m.q 0x1 0x0 ECX).testBit 28
      else if j = 10 then (m.q 0x1 0x0 ECX).testBit 23
      else if j = 5 then (m.q 0x1 0x0 ECX).testBit 20
      else if j = 4 then (m.q 0x1 0x0 ECX).testBit 19
      else if j = 8 then (m.q 0x1 0x0 ECX).testBit 12
      else if j = 3 then (m.q 0x1 0x0 ECX).testBit 9
      else if j = 2 then (m.q 0x1 0x0 ECX).testBit 0
      else if j = 1 then (m.q 0x1 0x0 EDX).testBit 26
      else if j = 0 then (m.q 0x1 0x0 EDX).testBit 25
      else if j = 16 then (m.q 0x1 0x0 EDX).testBit 4
      else (cpu_specs_default isa_x64).instructions.testBit j := by
    intro j
    rw [hinit]
    simp only [cpu_specs_get_common_instructions]
    rw [common_chain_testBit_leaf1 _ _ _ (by decide) j]
  refine ⟨hinit, by rw [hinit]; rfl, by rw [hinit]; rfl, by rw [hinit]; rfl,
    by rw [hinit]; rfl, by rw [hinit]; rfl, by rw [hinit]; rfl,
    by rw [hb]; rfl, by rw [hb]; rfl, by rw [hb]; rfl, by rw [hb]; rfl,
    by rw [hb]; rfl, by rw [hb]; rfl, by rw [hb]; rfl, by rw [hb]; rfl,
    by rw [hb]; rfl, by rw [hb]; rfl, by rw [hb]; rfl, by rw [hb]; rfl,
    by rw [hb]; rfl, ?_⟩
  intro j hj
  obtain ⟨h0, h1, h2, h3, h4, h5, h6, h8, h10, h16, h17⟩ :
      j ≠ 0 ∧ j ≠ 1 ∧ j ≠ 2 ∧ j ≠ 3 ∧ j ≠ 4 ∧ j ≠ 5 ∧ j ≠ 6 ∧ j ≠ 8 ∧ j ≠ 10 ∧
        j ≠ 16 ∧ j ≠ 17 := by
    simpa using hj
  rw [hb]
  simp [h0, h1, h2, h3, h4, h5, h6, h8, h10, h16, h17]

/-- Witness for C4 at the unknown-vendor machine with only the SSE1 leaf-1
bit set. -/
theorem witness_C4 :
    (cpu_specs_init mC4w 2 (cpu_specs_default true)).core_count = 1 ∧
    (cpu_specs_init mC4w 2 (cpu_specs_default true)).instructions.testBit 0 =
      (mC4w.q 0x1 0x0 EDX).testBit 25 :=
  ⟨(claim_C4 mC4w 2 true rfl (by decide) (by decide) (by decide) (by decide)).2.2.2.2.1,
   (claim_C4 mC4w 2 true rfl (by decide) (by decide) (by decide)
      (by decide)).2.2.2.2.2.2.2.2.2.1⟩

theorem intelBodyW_att_le (m : Machine) (n line tpc cc : Nat) :
    ∀ w ∈ intelBodyW m n line tpc cc, w.2.attached_core_count ≤ cc := by
  intro w hw
  unfold intelBodyW at hw
  dsimp only at hw
  split at hw
  · split at hw
    · simp only [List.mem_singleton] at hw
      subst hw
      dsimp only
      split
      · omega
      · omega
    · simp at hw
  · simp at hw

theorem intelLoopWs_att_le (m : Machine) : ∀ (fuel n line tpc cc : Nat),
    ∀ w ∈ intelLoopWs m fuel n line tpc cc, w.2.attached_core_count ≤ cc := by
  intro fuel
  induction fuel with
  | zero =>
    intro n line tpc cc w hw
    simp [intelLoopWs] at hw
  | succ fuel ih =>
    intro n line tpc cc w hw
    unfold intelLoopWs at hw
    split at hw
    · rcases List.mem_append.mp hw with h | h
      · exact intelBodyW_att_le m n line tpc cc w h
      · exact ih (n + 1) line tpc cc w h
    · simp at hw

theorem intelCachesWs_att_le (ctx : cpuid_ctx) (m : Machine) (fuel tpc cc : Nat) :
    ∀ w ∈ intelCachesWs ctx m fuel tpc cc, w.2.attached_core_count ≤ cc := by
  intro w hw
  unfold intelCachesWs at hw
  split at hw
  · exact intelLoopWs_att_le m fuel 0x0 _ tpc cc w hw
  · simp at hw

theorem amdBodyW_att_le (m : Machine) (n line tpc cc : Nat)
    (h : m.q 0x8000001D n EAX &&& 0x1 ≠ 0 →
      ((m.q 0x8000001D n EAX >>> 14) &&& 0xFFF) + 1 ≤ tpc * cc) :
    ∀ w ∈ amdBodyW m n line tpc, w.2.attached_core_count ≤ cc := by
  intro w hw
  unfold amdBodyW at hw
  dsimp only at hw
  split at hw
  next hq =>
    split at hw
    · simp only [List.mem_singleton] at hw
      subst hw
      dsimp only
      rcases Nat.eq_zero_or_pos tpc with h0 | hpos
      · subst h0
        simp
      · calc (((m.q 0x8000001D n EAX >>> 14) &&& 0xFFF) + 1) / tpc
            ≤ (tpc * cc) / tpc := Nat.div_le_div_right (h hq)
          _ = cc := Nat.mul_div_cancel_left cc hpos
    · simp at hw
  next => simp at hw

theorem amdLoopWs_att_le (m : Machine) : ∀ (fuel n line tpc cc : Nat),
    (∀ k, m.q 0x8000001D k EAX &&& 0x1 ≠ 0 →
      ((m.q 0x8000001D k EAX >>> 14) &&& 0xFFF) + 1 ≤ tpc * cc) →
    ∀ w ∈ amdLoopWs m fuel n line tpc, w.2.attached_core_count ≤ cc := by
  intro fuel
  induction fuel with
  | zero =>
    intro n line tpc cc hk w hw
    simp [amdLoopWs] at hw
  | succ fuel ih =>
    intro n line tpc cc hk w hw
    unfold amdLoopWs at hw
    rcases List.mem_append.mp hw with h | h
    · exact amdBodyW_att_le m n line tpc cc (hk n) w h
    · split at h
      · exact ih (n + 1) line tpc cc hk w h
      · simp at h

/-- Counterexample to C3 as stated: on an AMD machine reporting 1 core and
1 thread per core but a cache descriptor with 8 attached threads, the AMD
cache decoder stores attached_core_count = 8 > core_count = 1 for the
decoded (non-default) L1 level. -/
theorem counterexample_C3 :
    ((cpu_specs_init mC3 1 (cpu_specs_default true)).cache_level_specs 0).attached_core_count
        = 8 ∧
    (cpu_specs_init mC3 1 (cpu_specs_default true)).core_count = 1 ∧
    (cpu_specs_init mC3 1 (cpu_specs_default true)).cache_level_specs 0 ≠
      (cpu_specs_default true).cache_level_specs 0 ∧
    ¬((cpu_specs_init mC3 1 (cpu_specs_default true)).cache_level_specs 0).attached_core_count
        ≤ (cpu_specs_init mC3 1 (cpu_specs_default true)).core_count := by
  refine ⟨?_, ?_, ?_, ?_⟩ <;> decide

/-- C3 (amended): the bound attached_core_count ≤ core_count is enforced
unconditionally only by the Intel cache decoder, which clamps; for the AMD
leaf 0x8000001D decoder it holds only under the extra assumption that every
qualifying descriptor's reported attached-thread count is at most
threads_per_core × core_count (the decoder trusts the hardware and does not
clamp — see the counterexample).  In both cases every cache level is, after
the pass, either untouched or within the bound; the level-nonzero
assumptions rule out the out-of-bounds write of C9, under which the C
program has no defined behaviour. -/
theorem claim_C3 (m : Machine) (fuel : Nat) (s : cpu_specs_t) :
    (cpuid_is_available m = true → m.q 0x0 0x0 ECX = CPU_MANUFACTURER_INTEL →
      (∀ n, m.q 0x4 n EAX &&& 0b1 ≠ 0 → cache_level_of (m.q 0x4 n EAX) ≠ 0) →
      ∀ i, (cpu_specs_init m fuel s).cache_level_specs i = s.cache_level_specs i ∨
        ((cpu_specs_init m fuel s).cache_level_specs i).attached_core_count ≤
          (cpu_specs_init m fuel s).core_count) ∧
    (∀ ctx : cpuid_ctx, ctx.max_extended_func ≥ 0x8000001D →
      m.q 0x80000001 0x0 ECX &&& (1 <<< 22) ≠ 0 →
      (∀ n, m.q 0x8000001D n EAX &&& 0x1 ≠ 0 → cache_level_of (m.q 0x8000001D n EAX) ≠ 0) →
      (∀ n, m.q 0x8000001D n EAX &&& 0x1 ≠ 0 →
        ((m.q 0x8000001D n EAX >>> 14) &&& 0xFFF) + 1 ≤
          s.threads_per_core * s.core_count) →
      ∀ i, (cpu_specs_amd_get_caches_info ctx m fuel s).cache_level_specs i =
          s.cache_level_specs i ∨
        ((cpu_specs_amd_get_caches_info ctx m fuel s).cache_level_specs i).attached_core_count
          ≤ (cpu_specs_amd_get_caches_info ctx m fuel s).core_count) := by
  constructor
  · intro hA hV hlev i
    rw [cpu_specs_init_eq]
    dsimp only
    rw [applyWrites_apply]
    have hWs : initWs m fuel s.core_count =
        intelCachesWs (ctxOf m) m fuel (intelTpc (ctxOf m) m)
          ((intelCc (ctxOf m) m).getD s.core_count) := by
      unfold initWs
      simp [hA, hV, show CPU_MANUFACTURER_INTEL ≠ CPU_MANUFACTURER_AMD from by decide]
    have hCc : initCc m = intelCc (ctxOf m) m := by
      unfold initCc
      simp [hA, hV, show CPU_MANUFACTURER_INTEL ≠ CPU_MANUFACTURER_AMD from by decide]
    cases hw : lastW (initWs m fuel s.core_count) i with
    | none => left; rfl
    | some v =>
      right
      have hv : (i, v) ∈ initWs m fuel s.core_count := lastW_mem hw
      rw [hWs] at hv
      have := intelCachesWs_att_le (ctxOf m) m fuel (intelTpc (ctxOf m) m)
        ((intelCc (ctxOf m) m).getD s.core_count) (i, v) hv
      rw [hCc]
      exact this
  · intro ctx h1 h2 hlev hatc i
    rw [amd_caches_eq]
    dsimp only
    rw [applyWrites_apply]
    have hWs : amdCachesWs ctx m fuel s.threads_per_core s.core_count =
        amdLoopWs m fuel 0x0 ((m.q 0x8000001D 0x0 EBX &&& 0x7F) + 1)
          s.threads_per_core := by
      have h2' : m.q 0x80000001 0x0 ECX &&& 4194304 ≠ 0 := by simpa using h2
      unfold amdCachesWs
      simp [h1, h2']
    cases hw : lastW (amdCachesWs ctx m fuel s.threads_per_core s.core_count) i with
    | none => left; rfl
    | some v =>
      right
      have hv : (i, v) ∈ amdCachesWs ctx m fuel s.threads_per_core s.core_count :=
        lastW_mem hw
      rw [hWs] at hv
      exact amdLoopWs_att_le m fuel 0x0 _ s.threads_per_core s.core_count hatc (i, v) hv

/-- Witness for C3 (amended) at concrete Intel and AMD cache oracles. -/
theorem witness_C3 :
    ((cpu_specs_init mIC3 2 (cpu_specs_default true)).cache_level_specs 0 =
        (cpu_specs_default true).cache_level_specs 0 ∨
      ((cpu_specs_init mIC3 2 (cpu_specs_default true)).cache_level_specs 0).attached_core_count
        ≤ (cpu_specs_init mIC3 2 (cpu_specs_default true)).core_count) ∧
    ((cpu_specs_amd_get_caches_info { max_standard_func := 0xB, max_extended_func := 0x8000001D }
          mAC3 2 (cpu_specs_default true)).cache_level_specs 0 =
        (cpu_specs_default true).cache_level_specs 0 ∨
      ((cpu_specs_amd_get_caches_info { max_standard_func := 0xB, max_extended_func := 0x8000001D }
          mAC3 2 (cpu_specs_default true)).cache_level_specs 0).attached_core_count
        ≤ (cpu_specs_amd_get_caches_info { max_standard_func := 0xB, max_extended_func := 0x8000001D }
            mAC3 2 (cpu_specs_default true)).core_count) := by
  constructor
  · refine (claim_C3 mIC3 2 (cpu_specs_default true)).1 rfl (by decide) ?_ 0
    intro n
    match n with
    | 0 => decide
    | k + 1 =>
      intro hn
      exact absurd (show mIC3.q 0x4 (k + 1) EAX &&& 0b1 = 0 by
        simp [mIC3, machineOf, qOf, Prod.mk.injEq]) hn
  · refine (claim_C3 mAC3 2 (cpu_specs_default true)).2
      { max_standard_func := 0xB, max_extended_func := 0x8000001D }
      (by decide) (by decide) ?_ ?_ 0
    · intro n
      match n with
      | 0 => decide
      | k + 1 =>
        intro hn
        exact absurd (show mAC3.q 0x8000001D (k + 1) EAX &&& 0x1 = 0 by
          simp [mAC3, machineOf, qOf, Prod.mk.injEq]) hn
    · intro n
      match n with
      | 0 => decide
      | k + 1 =>
        intro hn
        exact absurd (show mAC3.q 0x8000001D (k + 1) EAX &&& 0x1 = 0 by
          simp [mAC3, machineOf, qOf, Prod.mk.injEq]) hn

theorem lor_bytes_eq (w : Nat) (hw : w < 2 ^ 32) :
    (w &&& 0xFF) ||| (((w >>> 8) &&& 0xFF) <<< 8) ||| (((w >>> 16) &&& 0xFF) <<< 16) |||
        (((w >>> 24) &&& 0xFF) <<< 24) = w := by
  apply Nat.eq_of_testBit_eq
  intro j
  have h255 : (0xFF : Nat) = 2 ^ 8 - 1 := by norm_num
  simp only [Nat.testBit_or, Nat.testBit_shiftLeft, Nat.testBit_and, h255,
    Nat.testBit_two_pow_sub_one, Nat.testBit_shiftRight]
  by_cases h1 : j < 8
  · have e1 : ¬8 ≤ j := by omega
    have e2 : ¬16 ≤ j := by omega
    have e3 : ¬24 ≤ j := by omega
    simp [h1, e1, e2, e3]
  · by_cases h2 : j < 16
    · have e1 : 8 ≤ j := by omega
      have e2 : ¬16 ≤ j := by omega
      have e3 : ¬24 ≤ j := by omega
      have e4 : 8 + (j - 8) = j := by omega
      have e5 : j - 8 < 8 := by omega
      simp [h1, e1, e2, e3, e4, e5]
    · by_cases h3 : j < 24
      · have e1 : 16 ≤ j := by omega
        have e2 : ¬24 ≤ j := by omega
        have e4 : 16 + (j - 16) = j := by omega
        have e5 : j - 16 < 8 := by omega
        have f1 : ¬j - 8 < 8 := by omega
        simp [h1, h2, e1, e2, e4, e5, f1]
      · by_cases h4 : j < 32
        · have e1 : 24 ≤ j := by omega
          have e4 : 24 + (j - 24) = j := by omega
          have e5 : j - 24 < 8 := by omega
          have f1 : ¬j - 8 < 8 := by omega
          have f2 : ¬j - 16 < 8 := by omega
          simp [h1, h2, h3, e1, e4, e5, f1, f2]
        · have e0 : ¬j - 8 < 8 := by omega
          have e1 : ¬j - 16 < 8 := by omega
          have e2 : ¬j - 24 < 8 := by omega
          have e3 : ¬j < 8 := by omega
          have hbig : w.testBit j = false := by
            apply Nat.testBit_eq_false_of_lt
            calc w < 2 ^ 32 := hw
              _ ≤ 2 ^ j := Nat.pow_le_pow_right (by norm_num) (by omega)
          simp [e0, e1, e2, e3, hbig]

theorem read32_manufacturer (b d c : Nat) (hc : c < 2 ^ 32) :
    read32 (leBytes4 b ++ leBytes4 d ++ leBytes4 c) 8 = c := by
  simp only [read32, leBytes4, List.cons_append, List.nil_append, List.getD_cons_succ,
    List.getD_cons_zero]
  exact lor_bytes_eq c hc

/-- C7: cpu_identity_init assembles the 12-byte manufacturer buffer from the
three leaf-0 signature registers in the fixed order (EBX, EDX, ECX), i.e.
(first, third, second); for the AuthenticAMD signature values the buffer
equals the 12 ASCII bytes of "AuthenticAMD" exactly, with no null
terminator among them. -/
theorem claim_C7 (m : Machine) (s : cpu_identity_t) (h : cpuid_is_available m = true) :
    (cpu_identity_init m s).manufacturer =
      leBytes4 (m.q 0x0 0x0 EBX) ++ leBytes4 (m.q 0x0 0x0 EDX) ++
        leBytes4 (m.q 0x0 0x0 ECX) ∧
    (cpu_identity_init m s).manufacturer.length = 12 ∧
    (m.q 0x0 0x0 EBX = 0x68747541 → m.q 0x0 0x0 EDX = 0x69746E65 →
      m.q 0x0 0x0 ECX = 0x444D4163 →
      (cpu_identity_init m s).manufacturer =
        [0x41, 0x75, 0x74, 0x68, 0x65, 0x6E, 0x74, 0x69, 0x63, 0x41, 0x4D, 0x44] ∧
      ∀ byte ∈ (cpu_identity_init m s).manufacturer, byte ≠ 0) := by
  have hman : (cpu_identity_init m s).manufacturer =
      leBytes4 (m.q 0x0 0x0 EBX) ++ leBytes4 (m.q 0x0 0x0 EDX) ++
        leBytes4 (m.q 0x0 0x0 ECX) := by
    unfold cpu_identity_init
    rw [if_pos h]
  refine ⟨hman, ?_, ?_⟩
  · rw [hman]
    simp [leBytes4]
  · intro h1 h2 h3
    have hconc : (cpu_identity_init m s).manufacturer =
        [0x41, 0x75, 0x74, 0x68, 0x65, 0x6E, 0x74, 0x69, 0x63, 0x41, 0x4D, 0x44] := by
      rw [hman, h1, h2, h3]
      decide
    refine ⟨hconc, ?_⟩
    rw [hconc]
    decide

/-- Witness for C7 at the AuthenticAMD machine. -/
theorem witness_C7 :
    (cpu_identity_init mC7 cpu_identity_default).manufacturer =
      [0x41, 0x75, 0x74, 0x68, 0x65, 0x6E, 0x74, 0x69, 0x63, 0x41, 0x4D, 0x44] :=
  (((claim_C7 mC7 cpu_identity_default rfl).2.2 (by decide) (by decide) (by decide))).1

/-- C6: in cpu_identity_init, when the raw family field (bits 8-11 of leaf-1
EAX) is the escape value 0xF, the extended-family field (bits 20-27) is
added to family — e.g. extended family 2 gives 17 — and the extended-model
field (bits 16-19, preshifted to the upper nibble) is OR'ed into model;
moreover with the Intel signature and family 6, the extended-model bits are
OR'ed in even though the family is not the escape value. -/
theorem claim_C6 (m : Machine) (s : cpu_identity_t) (h : cpuid_is_available m = true) :
    ((m.q 0x1 0x0 EAX >>> 8) &&& 0xF = 0xF →
      (cpu_identity_init m s).family = 0xF + ((m.q 0x1 0x0 EAX >>> 20) &&& 0xFF) ∧
      (cpu_identity_init m s).model =
        ((m.q 0x1 0x0 EAX >>> 4) &&& 0xF) ||| ((m.q 0x1 0x0 EAX >>> 12) &&& 0xF0)) ∧
    (m.q 0x0 0x0 ECX = CPU_MANUFACTURER_INTEL → (m.q 0x1 0x0 EAX >>> 8) &&& 0xF = 0x6 →
      (cpu_identity_init m s).family = 0x6 ∧
      (cpu_identity_init m s).stepping = m.q 0x1 0x0 EAX &&& 0xF ∧
      (cpu_identity_init m s).model =
        ((m.q 0x1 0x0 EAX >>> 4) &&& 0xF) ||| ((m.q 0x1 0x0 EAX >>> 12) &&& 0xF0)) := by
  constructor
  · intro hf
    have hne : ¬(read32
        (leBytes4 (m.q 0x0 0x0 EBX) ++ leBytes4 (m.q 0x0 0x0 EDX) ++
          leBytes4 (m.q 0x0 0x0 ECX)) 8 = CPU_MANUFACTURER_INTEL ∧
        ((m.q 0x1 0x0 EAX >>> 8) &&& 0xF) + ((m.q 0x1 0x0 EAX >>> 20) &&& 0xFF) = 0x6) := by
      rintro ⟨-, hc⟩
      rw [hf] at hc
      omega
    unfold cpu_identity_init
    rw [if_pos h]
    dsimp only
    rw [if_pos hf]
    dsimp only
    rw [if_neg hne, hf]
    exact ⟨rfl, rfl⟩
  · intro hI hf6
    have hnf : ¬((m.q 0x1 0x0 EAX >>> 8) &&& 0xF = 0xF) := by
      rw [hf6]
      decide
    have hpos : read32
        (leBytes4 (m.q 0x0 0x0 EBX) ++ leBytes4 (m.q 0x0 0x0 EDX) ++
          leBytes4 (m.q 0x0 0x0 ECX)) 8 = CPU_MANUFACTURER_INTEL ∧
        (m.q 0x1 0x0 EAX >>> 8) &&& 0xF = 0x6 := by
      constructor
      · rw [read32_manufacturer _ _ _ (m.hq 0x0 0x0 ECX)]
        exact hI
      · exact hf6
    unfold cpu_identity_init
    rw [if_pos h]
    dsimp only
    rw [if_neg hnf]
    dsimp only
    rw [if_pos hpos]
    exact ⟨hf6, rfl, rfl⟩

/-- Witness for C6: the escape-family machine yields family 17 and model
0x31; the Intel family-6 machine yields family 6 and model 0x32. -/
theorem witness_C6 :
    ((cpu_identity_init mC6a cpu_identity_default).family = 17 ∧
      (cpu_identity_init mC6a cpu_identity_default).model = 0x31) ∧
    ((cpu_identity_init mC6b cpu_identity_default).family = 6 ∧
      (cpu_identity_init mC6b cpu_identity_default).model = 0x32) := by
  constructor
  · have hc := (claim_C6 mC6a cpu_identity_default rfl).1 (by decide)
    constructor
    · rw [hc.1]
      decide
    · rw [hc.2]
      decide
  · have hc := (claim_C6 mC6b cpu_identity_default rfl).2 (by decide) (by decide)
    constructor
    · rw [hc.1]
    · rw [hc.2.2]
      decide

theorem amdBodyOob_false (m : Machine) (n : Nat)
    (h : m.q 0x8000001D n EAX &&& 0x1 ≠ 0 → cache_level_of (m.q 0x8000001D n EAX) ≠ 0) :
    amdBodyOob m n = false := by
  unfold amdBodyOob
  apply decide_eq_false
  rintro ⟨hq, hb⟩
  apply hb
  have hlev := h hq
  have hle : cache_level_of (m.q 0x8000001D n EAX) ≤ 3 := Nat.and_le_right
  unfold cache_idx_of
  omega

theorem amdLoopOob_false (m : Machine)
    (h : ∀ k, m.q 0x8000001D k EAX &&& 0x1 ≠ 0 →
      cache_level_of (m.q 0x8000001D k EAX) ≠ 0) :
    ∀ fuel n, amdLoopOob m fuel n = false := by
  intro fuel
  induction fuel with
  | zero => intro n; rfl
  | succ fuel ih =>
    intro n
    unfold amdLoopOob
    rw [amdBodyOob_false m n (h n)]
    split
    · rw [ih (n + 1)]
      rfl
    · rfl

theorem amdCachesOob_false (ctx : cpuid_ctx) (m : Machine) (fuel : Nat)
    (h : ∀ k, m.q 0x8000001D k EAX &&& 0x1 ≠ 0 →
      cache_level_of (m.q 0x8000001D k EAX) ≠ 0) :
    amdCachesOob ctx m fuel = false := by
  unfold amdCachesOob
  split
  · split
    · exact amdLoopOob_false m h fuel 0x0
    · rfl
  · rfl

theorem intelBodyOob_false (m : Machine) (n : Nat)
    (h : m.q 0x4 n EAX &&& 0b1 ≠ 0 → cache_level_of (m.q 0x4 n EAX) ≠ 0) :
    intelBodyOob m n = false := by
  unfold intelBodyOob
  apply decide_eq_false
  rintro ⟨hq, hb⟩
  apply hb
  have hlev := h hq
  have hle : cache_level_of (m.q 0x4 n EAX) ≤ 3 := Nat.and_le_right
  unfold cache_idx_of
  omega

theorem intelLoopOob_false (m : Machine)
    (h : ∀ k, m.q 0x4 k EAX &&& 0b1 ≠ 0 → cache_level_of (m.q 0x4 k EAX) ≠ 0) :
    ∀ fuel n, intelLoopOob m fuel n = false := by
  intro fuel
  induction fuel with
  | zero => intro n; rfl
  | succ fuel ih =>
    intro n
    unfold intelLoopOob
    split
    · rw [intelBodyOob_false m n (h n), ih (n + 1)]
      rfl
    · rfl

theorem intelCachesOob_false (ctx : cpuid_ctx) (m : Machine) (fuel : Nat)
    (h : ∀ k, m.q 0x4 k EAX &&& 0b1 ≠ 0 → cache_level_of (m.q 0x4 k EAX) ≠ 0) :
    intelCachesOob ctx m fuel = false := by
  unfold intelCachesOob
  split
  · exact intelLoopOob_false m h fuel 0x0
  · rfl

theorem amdLoopDiv0_false (m : Machine) (tpc : Nat) (h : tpc ≠ 0) :
    ∀ fuel n, amdLoopDiv0 m fuel n tpc = false := by
  intro fuel
  induction fuel with
  | zero => intro n; rfl
  | succ fuel ih =>
    intro n
    unfold amdLoopDiv0
    rw [decide_eq_false h]
    split
    · rw [ih (n + 1)]
      simp
    · simp

theorem amdCachesDiv0_false (ctx : cpuid_ctx) (m : Machine) (fuel tpc : Nat)
    (h : tpc ≠ 0) : amdCachesDiv0 ctx m fuel tpc = false := by
  unfold amdCachesDiv0
  split
  · split
    · exact amdLoopDiv0_false m tpc h fuel 0x0
    · rfl
  · rfl

theorem intelLoopDiv0_false (m : Machine) (tpc : Nat) (h : tpc ≠ 0) :
    ∀ fuel n, intelLoopDiv0 m fuel n tpc = false := by
  intro fuel
  induction fuel with
  | zero => intro n; rfl
  | succ fuel ih =>
    intro n
    unfold intelLoopDiv0
    rw [decide_eq_false h]
    split
    · rw [ih (n + 1)]
      simp
    · simp

theorem intelCachesDiv0_false (ctx : cpuid_ctx) (m : Machine) (fuel tpc : Nat)
    (h : tpc ≠ 0) : intelCachesDiv0 ctx m fuel tpc = false := by
  unfold intelCachesDiv0
  split
  · exact intelLoopDiv0_false m tpc h fuel 0x0
  · rfl

/-- C9: both vendor cache decoders index cache_level_specs with
cache_level - 1 (an s32), and for a qualifying descriptor that index is
within the 3-entry array exactly when the 2-bit level field is nonzero: a
level-0 descriptor makes the write land outside the array (recorded by the
oob_write instrumentation flag, reachable in both decoders), while a run in
which every qualifying descriptor reports a nonzero level performs only
in-bounds writes. -/
theorem claim_C9 :
    (∀ eax : Nat, eax &&& 0x1 ≠ 0 →
      ((0 ≤ cache_idx_of eax ∧ cache_idx_of eax < 3) ↔ cache_level_of eax ≠ 0)) ∧
    (∀ (ctx : cpuid_ctx) (m : Machine) (fuel : Nat) (s : cpu_specs_t),
      ctx.max_extended_func ≥ 0x8000001D →
      m.q 0x80000001 0x0 ECX &&& (1 <<< 22) ≠ 0 →
      m.q 0x8000001D 0x0 EAX &&& 0x1 ≠ 0 → cache_level_of (m.q 0x8000001D 0x0 EAX) = 0 →
      (cpu_specs_amd_get_caches_info ctx m (fuel + 1) s).oob_write = true) ∧
    (∀ (ctx : cpuid_ctx) (m : Machine) (fuel : Nat) (s : cpu_specs_t),
      ctx.max_standard_func ≥ 0x4 → m.q 0x4 0x0 EAX &&& 0xF ≠ 0 →
      m.q 0x4 0x0 EAX &&& 0b1 ≠ 0 → cache_level_of (m.q 0x4 0x0 EAX) = 0 →
      (cpu_specs_intel_get_caches_info ctx m (fuel + 1) s).oob_write = true) ∧
    (∀ (ctx : cpuid_ctx) (m : Machine) (fuel : Nat) (s : cpu_specs_t),
      (∀ n, m.q 0x8000001D n EAX &&& 0x1 ≠ 0 →
        cache_level_of (m.q 0x8000001D n EAX) ≠ 0) →
      (cpu_specs_amd_get_caches_info ctx m fuel s).oob_write = s.oob_write) ∧
    (∀ (ctx : cpuid_ctx) (m : Machine) (fuel : Nat) (s : cpu_specs_t),
      (∀ n, m.q 0x4 n EAX &&& 0b1 ≠ 0 → cache_level_of (m.q 0x4 n EAX) ≠ 0) →
      (cpu_specs_intel_get_caches_info ctx m fuel s).oob_write = s.oob_write) := by
  refine ⟨?_, ?_, ?_, ?_, ?_⟩
  · intro eax _
    have hle : cache_level_of eax ≤ 3 := Nat.and_le_right
    unfold cache_idx_of
    omega
  · intro ctx m fuel s h1 h2 hq hlev
    rw [amd_caches_eq]
    dsimp only
    have hbody : amdBodyOob m 0x0 = true := by
      unfold amdBodyOob
      apply decide_eq_true
      refine ⟨hq, ?_⟩
      rintro ⟨hge, -⟩
      rw [cache_idx_of, hlev] at hge
      omega
    have hcaches : amdCachesOob ctx m (fuel + 1) = true := by
      unfold amdCachesOob
      rw [if_pos h1, if_pos h2]
      unfold amdLoopOob
      rw [hbody]
      split <;> rfl
    rw [hcaches]
    simp
  · intro ctx m fuel s h1 hv hq hlev
    rw [intel_caches_eq]
    dsimp only
    have hbody : intelBodyOob m 0x0 = true := by
      unfold intelBodyOob
      apply decide_eq_true
      refine ⟨hq, ?_⟩
      rintro ⟨hge, -⟩
      rw [cache_idx_of, hlev] at hge
      omega
    have hcaches : intelCachesOob ctx m (fuel + 1) = true := by
      unfold intelCachesOob
      rw [if_pos h1]
      unfold intelLoopOob
      rw [if_pos hv, hbody]
      rfl
    rw [hcaches]
    simp
  · intro ctx m fuel s h
    rw [amd_caches_eq]
    dsimp only
    rw [amdCachesOob_false ctx m fuel h]
    simp
  · intro ctx m fuel s h
    rw [intel_caches_eq]
    dsimp only
    rw [intelCachesOob_false ctx m fuel h]
    simp

/-- Witness for C9 at concrete level-0 and level-1 descriptors. -/
theorem witness_C9 :
    ((0 ≤ cache_idx_of 33 ∧ cache_idx_of 33 < 3) ↔ cache_level_of 33 ≠ 0) ∧
    (cpu_specs_amd_get_caches_info
        { max_standard_func := 0xB, max_extended_func := 0x8000001D } mAC9 1
        (cpu_specs_default true)).oob_write = true ∧
    (cpu_specs_intel_get_caches_info
        { max_standard_func := 0x4, max_extended_func := 0x0 } mIC9 1
        (cpu_specs_default true)).oob_write = true := by
  refine ⟨claim_C9.1 33 (by decide), ?_, ?_⟩
  · exact claim_C9.2.1 _ mAC9 0 _ (by decide) (by decide) (by decide) (by decide)
  · exact claim_C9.2.2.1 _ mIC9 0 _ (by decide) (by decide) (by decide) (by decide)

/-- C10: every division performed by a detection pass divides by the
threads_per_core value taken from the hardware-reported field: in the
leaf-0xB/0x1F topology paths of both vendors a reported 16-bit field of 0
makes the divisor of core_count = total / threads_per_core zero (recorded
by the div_by_zero instrumentation flag), and under the precondition that
the reported field is nonzero no division in the pass (topology or cache
decoders) has a zero divisor. -/
theorem claim_C10 (m : Machine) (fuel : Nat) (s : cpu_specs_t) :
    (cpuid_is_available m = true → m.q 0x0 0x0 ECX = CPU_MANUFACTURER_AMD →
      m.q 0x0 0x0 EAX ≥ 0xB → m.q 0xB 0x0 EBX &&& 0xFFFF = 0 →
      (cpu_specs_init m fuel s).div_by_zero = true) ∧
    (cpuid_is_available m = true → m.q 0x0 0x0 ECX = CPU_MANUFACTURER_INTEL →
      m.q 0x0 0x0 EAX ≥ 0xB →
      m.q (if m.q 0x0 0x0 EAX ≥ 0x1F then 0x1F else 0xB) 0x0 EBX &&& 0xFFFF = 0 →
      (cpu_specs_init m fuel s).div_by_zero = true) ∧
    (cpuid_is_available m = true →
      (m.q 0x0 0x0 ECX = CPU_MANUFACTURER_AMD → m.q 0x0 0x0 EAX ≥ 0xB →
        m.q 0xB 0x0 EBX &&& 0xFFFF ≠ 0) →
      (m.q 0x0 0x0 ECX = CPU_MANUFACTURER_INTEL → m.q 0x0 0x0 EAX ≥ 0xB →
        m.q (if m.q 0x0 0x0 EAX ≥ 0x1F then 0x1F else 0xB) 0x0 EBX &&& 0xFFFF ≠ 0) →
      (cpu_specs_init m fuel s).div_by_zero = s.div_by_zero) := by
  refine ⟨?_, ?_, ?_⟩
  · intro hA hV hstd hf
    rw [cpu_specs_init_eq]
    dsimp only
    have hdiv : initDiv0 m fuel = true := by
      unfold initDiv0
      rw [if_pos hA, if_pos hV]
      have hc : amdCoresDiv0 (ctxOf m) m = true := by
        unfold amdCoresDiv0 ctxOf
        exact decide_eq_true ⟨hstd, hf⟩
      rw [hc]
      rfl
    rw [hdiv]
    simp
  · intro hA hV hstd hf
    rw [cpu_specs_init_eq]
    dsimp only
    have hdiv : initDiv0 m fuel = true := by
      unfold initDiv0
      rw [if_pos hA, if_neg (by rw [hV]; decide), if_pos hV]
      have hc : intelCoresDiv0 (ctxOf m) m = true := by
        unfold intelCoresDiv0 ctxOf
        exact decide_eq_true ⟨hstd, hf⟩
      rw [hc]
      rfl
    rw [hdiv]
    simp
  · intro hA hamd hintel
    rw [cpu_specs_init_eq]
    dsimp only
    have hdiv : initDiv0 m fuel = false := by
      unfold initDiv0
      rw [if_pos hA]
      by_cases hV1 : m.q 0x0 0x0 ECX = CPU_MANUFACTURER_AMD
      · rw [if_pos hV1]
        have htpc : amdTpc (ctxOf m) m ≠ 0 := by
          unfold amdTpc ctxOf
          split
          next hstd => exact hamd hV1 hstd
          next => simp
        have hc : amdCoresDiv0 (ctxOf m) m = false := by
          unfold amdCoresDiv0 ctxOf
          apply decide_eq_false
          rintro ⟨hstd, hf⟩
          exact hamd hV1 hstd hf
        rw [hc, amdCachesDiv0_false _ _ _ _ htpc]
        rfl
      · rw [if_neg hV1]
        by_cases hV2 : m.q 0x0 0x0 ECX = CPU_MANUFACTURER_INTEL
        · rw [if_pos hV2]
          have htpc : intelTpc (ctxOf m) m ≠ 0 := by
            unfold intelTpc ctxOf
            split
            next hstd => exact hintel hV2 hstd
            next => simp
          have hc : intelCoresDiv0 (ctxOf m) m = false := by
            unfold intelCoresDiv0 ctxOf
            apply decide_eq_false
            rintro ⟨hstd, hf⟩
            exact hintel hV2 hstd hf
          rw [hc, intelCachesDiv0_false _ _ _ _ htpc]
          rfl
        · rw [if_neg hV2]
    rw [hdiv]
    simp

/-- Witness for C10: reported threads-per-core of 0 on either vendor sets
the division-by-zero flag; the consistent AMD machine leaves it clear. -/
theorem witness_C10 :
    (cpu_specs_init mAD0 1 (cpu_specs_default true)).div_by_zero = true ∧
    (cpu_specs_init mID0 1 (cpu_specs_default true)).div_by_zero = true ∧
    (cpu_specs_init mC3 1 (cpu_specs_default true)).div_by_zero = false := by
  refine ⟨?_, ?_, ?_⟩
  · exact (claim_C10 mAD0 1 (cpu_specs_default true)).1 rfl (by decide) (by decide) (by decide)
  · exact (claim_C10 mID0 1 (cpu_specs_default true)).2.1 rfl (by decide) (by decide)
      (by decide)
  · exact (claim_C10 mC3 1 (cpu_specs_default true)).2.2 rfl
      (fun _ _ => by decide) (fun hI => absurd hI (by decide))
